import Mathlib

/-!
# Invoice rendering engine: layout and totals

A shallow embedding of `utils/pdfGenerator.js` (glyph pre-generation, waves,
header, bill-to, items table, totals panel, footer and `_build`), of the item
rows and totals lines of the other templates, of the template dispatch in
`utils/pdf/index.js` and of the totals calculation of the create route in
`routes/invoices.js`.

Conventions of the embedding:

* JavaScript numbers are exact rationals (`ℚ`); `NaN` and `undefined`
  are separate constructors of `JsNum`. Infinite values and non-numeric
  values in numeric fields are outside the model.
* `Math.floor` is `Int.floor`, `Math.min`/`Math.max` are `min`/`max`.
* The PDF document is an append-only stream of drawing operations; each
  drawing method returns the operations it appends, in order. Calls that only
  change font, size or colour are not recorded.
* Text is kept symbolic (`Part`): a literal, `String(number)` or
  `number.toFixed(2)`; `Part.render` gives the characters.
* A thrown JavaScript error is the `error` case of `Except`, with the message
  as its value.
-/

namespace InvoiceBackend

/-! ## Values -/

/-- A value read from a numeric field: absent (`undefined`), `NaN`, or a number. -/
inductive JsNum where
  | undef
  | nan
  | num (q : ℚ)
deriving DecidableEq

/-- The expression `Number(v || d)` for a numeric default `d`: `v` is kept when it is truthy
(a number other than `0`), otherwise `d` is taken. -/
def orNum (v : JsNum) (d : ℚ) : ℚ :=
  match v with
  | .num q => if q = 0 then d else q
  | _ => d

/-- The expression `v || d` for strings: an absent or empty string is falsy. -/
def orStr (v : Option String) (d : String) : String :=
  match v with
  | some s => if s = "" then d else s
  | none => d

/-- One piece of a template string. -/
inductive Part where
  /-- literal text -/
  | str (s : String)
  /-- a number converted with `String(...)` or by interpolation -/
  | num (q : ℚ)
  /-- a number converted with `toFixed(2)` -/
  | fixed2 (q : ℚ)
  /-- a date formatted by `toLocaleDateString("en-US", ...)` -/
  | date (d : String)
deriving DecidableEq

/-- Text alignment option of `doc.text`; `left` is the library default. -/
inductive Align where
  | left
  | center
  | right
deriving DecidableEq

/-- Drawing operations appended to the document. -/
inductive Op where
  | rect (x y w h : ℚ)
  | roundedRect (x y w h r : ℚ)
  | line (x1 y1 x2 y2 : ℚ)
  | text (t : List Part) (x y : ℚ) (width : Option ℚ) (align : Align)
  | image (x y w h : ℚ)
  | circle (cx cy r : ℚ)
  /-- text placed at the current text cursor, with an optional `x` -/
  | flowText (t : List Part) (x : Option ℚ) (align : Align)
  /-- closed filled path `moveTo, lineTo, lineTo, bezierCurveTo, closePath` -/
  | wave (x0 y0 x1 y1 x2 y2 c1x c1y c2x c2y x3 y3 : ℚ)
deriving DecidableEq

/-- The page of the document (`doc.page.width`, `doc.page.height`). -/
structure Page where
  width : ℚ
  height : ℚ
deriving DecidableEq

/-- The page created for `size: "A4"`. -/
def a4 : Page := ⟨59528 / 100, 84189 / 100⟩

/-! ## Invoice model -/

/-- A party of the invoice (`from` / `to`). -/
structure Party where
  name : Option String := none
  email : Option String := none
  address : Option String := none
  city : Option String := none
  state : Option String := none
  zip : Option String := none
deriving DecidableEq

/-- A line item. -/
structure Item where
  description : Option String := none
  quantity : JsNum := .undef
  price : JsNum := .undef
deriving DecidableEq

/-- The invoice object handed to the generator. -/
structure Invoice where
  invoiceNumber : Option String := none
  issueDate : Option String := none
  sender : Option Party := none
  recipient : Option Party := none
  items : Option (List Item) := none
  subtotal : JsNum := .undef
  taxRate : JsNum := .undef
  taxAmount : JsNum := .undef
  discountRate : JsNum := .undef
  discountAmount : JsNum := .undef
  total : JsNum := .undef
deriving DecidableEq

/-! ## Items table (`_drawItemsTable`) -/

/-- Local constant `left` of `_drawItemsTable`. -/
def tableLeft : ℚ := 40

/-- Local constant `top` of `_drawItemsTable`. -/
def tableTop : ℚ := 320

/-- Local constant `tableWidth = pageWidth - 80`. -/
def tableWidth (page : Page) : ℚ := page.width - 80

/-- Column width `descW = Math.floor(tableWidth * 0.50)`. -/
def descW (w : ℚ) : ℚ := (⌊w * (1 / 2)⌋ : ℤ)

/-- Column width `qtyW = Math.floor(tableWidth * 0.20)`. -/
def qtyW (w : ℚ) : ℚ := (⌊w * (1 / 5)⌋ : ℤ)

/-- Column width `amtW = tableWidth - descW - qtyW`. -/
def amtW (w : ℚ) : ℚ := w - descW w - qtyW w

/-- Local constant `headerHeight`. -/
def headerHeight : ℚ := 30

/-- Local constant `rowHeight`. -/
def rowHeight : ℚ := 28

/-- Local constant `totalRows = invoice.items?.length || 0`. -/
def totalRows (invoice : Invoice) : ℕ :=
  match invoice.items with
  | some items => items.length
  | none => 0

/-- Local constant `tableHeight = headerHeight + totalRows * rowHeight`. -/
def tableHeight (invoice : Invoice) : ℚ := headerHeight + (totalRows invoice : ℚ) * rowHeight

/-- Body of the `forEach` callback for one item with index `idx` at band top `y`. -/
def drawRow (w : ℚ) (y : ℚ) (item : Item) (idx : ℕ) : List Op :=
  let itemTextY := y + (rowHeight - 12) / 2 + 1
  [Op.rect tableLeft y w rowHeight]
    ++ (if idx % 2 = 0 then [Op.rect (tableLeft + 1) (y + 1) (w - 2) (rowHeight - 2)] else [])
    ++ [Op.text [.str (orStr item.description "-")] tableLeft itemTextY (some (descW w)) .center,
        Op.text [.num (orNum item.quantity 0)] (tableLeft + descW w) itemTextY
          (some (qtyW w)) .center,
        Op.text [.str "Rs.", .fixed2 (orNum item.price 0)] (tableLeft + descW w + qtyW w)
          itemTextY (some (amtW w)) .center]

/-- The `forEach` loop over the items: the operations drawn and the final value of the
mutable cursor `y`, which advances by `rowHeight` per item. -/
def drawRows (w : ℚ) : List Item → ℕ → ℚ → List Op × ℚ
  | [], _, y => ([], y)
  | item :: rest, idx, y =>
    let r := drawRows w rest (idx + 1) (y + rowHeight)
    (drawRow w y item idx ++ r.1, r.2)

/-- Result of `_drawItemsTable`: appended operations, the invoice after the call (the method
assigns `invoice.items = invoice.items || []`) and the returned Y. -/
structure TableResult where
  ops : List Op
  invoice : Invoice
  ret : ℚ

/-- The method `_drawItemsTable(doc, invoice)`. -/
def _drawItemsTable (page : Page) (invoice : Invoice) : TableResult :=
  let w := tableWidth page
  let headerTextY := tableTop + (headerHeight - 13) / 2 + 2
  let header : List Op :=
    [Op.rect tableLeft tableTop w (tableHeight invoice),
     Op.rect tableLeft tableTop w headerHeight,
     Op.text [.str "Description"] tableLeft headerTextY (some (descW w)) .center,
     Op.text [.str "Quantity"] (tableLeft + descW w) headerTextY (some (qtyW w)) .center,
     Op.text [.str "Amount"] (tableLeft + descW w + qtyW w) headerTextY (some (amtW w)) .center]
  let y := tableTop + headerHeight
  let items := invoice.items.getD []
  let rows := drawRows w items 0 y
  { ops := header ++ rows.1
    invoice := { invoice with items := some items }
    ret := rows.2 + 12 }

/-! ## Totals panel (`_drawTotalsBox`) -/

/-- The six local constants computed at lines 496-505 of `_drawTotalsBox`; the same statements
open `_generateHTML` in the HTML templates. -/
structure Totals where
  subtotal : ℚ
  taxRate : ℚ
  taxAmount : ℚ
  discountRate : ℚ
  discountAmount : ℚ
  total : ℚ
deriving DecidableEq

/-- The totals calculation of `_drawTotalsBox`. -/
def computeTotals (invoice : Invoice) : Totals :=
  let subtotal := orNum invoice.subtotal 0
  let taxRate := orNum invoice.taxRate 0
  let taxAmount := orNum invoice.taxAmount ((subtotal * taxRate) / 100)
  let discountRate := orNum invoice.discountRate 0
  let discountAmount := orNum invoice.discountAmount ((subtotal * discountRate) / 100)
  let total := orNum invoice.total (max 0 (subtotal + taxAmount - discountAmount))
  { subtotal := subtotal, taxRate := taxRate, taxAmount := taxAmount,
    discountRate := discountRate, discountAmount := discountAmount, total := total }

/-- Local constant `boxWidth`. -/
def boxWidth : ℚ := 280

/-- Local constant `boxHeight`. -/
def boxHeight : ℚ := 130

/-- Local constant `boxX = doc.page.width - 40 - boxWidth`. -/
def boxX (page : Page) : ℚ := page.width - 40 - boxWidth

/-- Local constant `boxY = startY + 8`. -/
def boxY (startY : ℚ) : ℚ := startY + 8

/-- The helper `printLine(label, value)` at cursor `py`. -/
def printLine (page : Page) (py : ℚ) (label value : List Part) : List Op :=
  [Op.text label (boxX page + 14) py (some (boxWidth * (55 / 100))) .left,
   Op.text value (boxX page + 14 + boxWidth * (55 / 100)) py
     (some (boxWidth * (45 / 100) - 18)) .right]

/-- The method `_drawTotalsBox(doc, invoice, startY)`: appended operations and returned Y. -/
def _drawTotalsBox (page : Page) (invoice : Invoice) (startY : ℚ) : List Op × ℚ :=
  let t := computeTotals invoice
  let py0 := boxY startY + 14
  let l1 := printLine page py0 [.str "Subtotal"] [.str "Rs.", .fixed2 t.subtotal]
  let py1 := py0 + 22
  let l2 := printLine page py1 [.str "Tax (", .num t.taxRate, .str "%)"]
    [.str "Rs.", .fixed2 t.taxAmount]
  let py2 := py1 + 22
  let l3 := if 0 < t.discountRate then
      printLine page py2 [.str "Discount (", .num t.discountRate, .str "%)"]
        [.str "-Rs.", .fixed2 t.discountAmount]
    else []
  let py3 := if 0 < t.discountRate then py2 + 22 else py2
  let divider := Op.line (boxX page + 10) py3 (boxX page + boxWidth - 10) py3
  let py4 := py3 + 8
  let totalLine :=
    [Op.text [.str "Total"] (boxX page + 14) py4 (some (boxWidth * (55 / 100))) .left,
     Op.text [.str "Rs.", .fixed2 t.total] (boxX page + 14 + boxWidth * (55 / 100)) py4
       (some (boxWidth * (45 / 100) - 18)) .right]
  ([Op.roundedRect (boxX page) (boxY startY) boxWidth boxHeight 8]
      ++ l1 ++ l2 ++ l3 ++ [divider] ++ totalLine,
    boxY startY + boxHeight)

/-! ## Footer (`_drawFooter`) -/

/-- Local constant `footerTop = Math.min(lastY + 28, doc.page.height - 160)`. -/
def footerTop (page : Page) (lastY : ℚ) : ℚ := min (lastY + 28) (page.height - 160)

/-- The utility `_drawLine(doc, y)`. -/
def _drawLine (page : Page) (y : ℚ) : Op := Op.line 40 y (page.width - 40) y

/-- A glyph bitmap buffer: `doc.image` either accepts it or throws on it. -/
inductive QrBuffer where
  | valid
  | corrupt
deriving DecidableEq

/-- The method `_drawFooter(doc, invoice, pageWidth, lastY, qrBuffer)`; `qr` is the glyph
buffer, `none` for `null`. The glyph block sits in a `try`/`catch`: when `doc.image` throws,
the label after it is skipped and the method goes on. -/
def _drawFooter (page : Page) (invoice : Invoice) (pageWidth lastY : ℚ)
    (qr : Option QrBuffer) : List Op :=
  let ft := footerTop page lastY
  let email := orStr (invoice.sender.bind (·.email)) "-"
  let name := orStr (invoice.sender.bind (·.name)) "-"
  let qrSize : ℚ := 70
  let qrX := pageWidth - 40 - qrSize
  let qrY := ft + 8
  let qrOps : List Op :=
    match qr with
    | some .valid =>
      [Op.image qrX qrY qrSize qrSize,
       Op.text [.str "Scan to pay"] qrX (qrY + qrSize + 6) (some qrSize) .center]
    | some .corrupt => []
    | none => []
  let qrBottomY := ft + 8 + 70 + 20
  let stripY := max (ft + 75) qrBottomY
  [_drawLine page ft,
   Op.text [.str "Payment Details:"] 40 (ft + 12) none .left,
   Op.text [.str "Account: ", .str email, .str " | Bank: ", .str name] 40 (ft + 32)
     (some (pageWidth - 320)) .left]
    ++ qrOps
    ++ [Op.rect 40 stripY (pageWidth - 80) 4,
        Op.text [.str "Thank you for your business!"] 40 (stripY + 14)
          (some (pageWidth - 80)) .center]

/-! ## The build chain (`_build`, lines 70-77) -/

/-- What the last three calls of `_build` compute: the two intermediate cursors, the
operations appended by the table, the totals panel and the footer, and the invoice after the
pass. The waves, header and bill-to calls before them do not feed into these values; they
decide whether the three calls are reached at all, which is part of `buildDocument`. -/
structure BuildResult where
  tableBottomY : ℚ
  totalsBottomY : ℚ
  tableOps : List Op
  totalsOps : List Op
  footerOps : List Op
  invoice : Invoice

/-- Lines 70-77 of `_build(doc, invoice, qrBuffer)`: the chain of `_drawItemsTable`,
`_drawTotalsBox` and `_drawFooter`, as it runs once the header has been drawn. It is not the
whole method: `_drawHeader` before it throws when `invoice.from` is absent, and then none of
these values is computed. The whole method, with that error, is `buildDocument`, which runs
this chain only after a header that completed. -/
def _build (page : Page) (invoice : Invoice) (qr : Option QrBuffer) : BuildResult :=
  let pageWidth := page.width
  let table := _drawItemsTable page invoice
  let tableBottomY := table.ret
  let totals := _drawTotalsBox page table.invoice tableBottomY
  let totalsBottomY := totals.2
  let footer := _drawFooter page table.invoice pageWidth totalsBottomY qr
  { tableBottomY := tableBottomY, totalsBottomY := totalsBottomY,
    tableOps := table.ops, totalsOps := totals.1, footerOps := footer,
    invoice := table.invoice }

/-! ## Text rendering -/

/-- Two decimal digits of a number below 100. -/
def digits2 (n : ℕ) : String := (if n < 10 then "0" else "") ++ toString n

/-- The call `q.toFixed(2)` for `|q| < 10^21`: the sign, then `|q|` rounded to hundredths with
ties upwards, written with two decimals. -/
def toFixed2 (q : ℚ) : String :=
  let n : ℕ := (2 * 100 * q.num.natAbs + q.den) / (2 * q.den)
  (if q.num < 0 then "-" else "") ++ toString (n / 100) ++ "." ++ digits2 (n % 100)

/-- The conversion `String(q)` for an integer `q` with `|q| < 10^21`; the decimal notation of
other numbers is not modelled. -/
def numToString (q : ℚ) : Option String :=
  if q.den = 1 then some (toString q.num) else none

/-- The characters of one piece of text; a locale-formatted date is not modelled. -/
def Part.render : Part → Option String
  | .str s => some s
  | .num q => numToString q
  | .fixed2 q => some (toFixed2 q)
  | .date _ => none

/-- The characters of a text made of pieces. -/
def renderText : List Part → Option String
  | [] => some ""
  | p :: rest =>
    match p.render, renderText rest with
    | some a, some b => some (a ++ b)
    | _, _ => none

/-! ## Waves, header and bill-to (`_drawWaves`, `_drawHeader`, `_drawBillTo`) -/

/-- The method `_drawWaves(doc, pageWidth)`: three filled waves at the top and three at the
bottom of the page. -/
def _drawWaves (page : Page) (pageWidth : ℚ) : List Op :=
  let left : ℚ := 0
  let right := pageWidth
  let pageHeight := page.height
  let bottomY := pageHeight - 120
  [Op.wave left 0 right 0 right 80 (right * (3 / 4)) 110 (right * (1 / 4)) 40 left 90,
   Op.wave left 0 right 0 right 60 (right * (3 / 4)) 90 (right * (1 / 4)) 20 left 70,
   Op.wave left 0 right 0 right 40 (right * (3 / 4)) 70 (right * (1 / 4)) 0 left 60,
   Op.wave left pageHeight right pageHeight right (bottomY + 40)
     (right * (3 / 4)) (bottomY + 10) (right * (1 / 4)) (bottomY + 130) left (bottomY + 30),
   Op.wave left pageHeight right pageHeight right (bottomY + 80)
     (right * (3 / 4)) (bottomY + 40) (right * (1 / 4)) (bottomY + 80) left (bottomY + 50),
   Op.wave left pageHeight right pageHeight right (bottomY + 110)
     (right * (3 / 4)) (bottomY + 80) (right * (1 / 4)) (bottomY + 120) left (bottomY + 90)]

/-- The utility `_getInitials(name)`: the first two characters of a one-word name, otherwise the
first characters of the first and the last word, in upper case. Words are separated by the
whitespace characters that `Char.isWhitespace` knows. -/
def _getInitials (name : String) : String :=
  if name = "" then "SG"
  else
    match (name.trim.split Char.isWhitespace).filter (fun part => part ≠ "") with
    | [] => ""
    | [part] => (part.take 2).toUpper
    | part :: rest => ((part.take 1) ++ ((rest.getLast?.getD "").take 1)).toUpper

/-- The utility `_formatDate(date)`. -/
def _formatDate (date : Option String) : List Part :=
  match date with
  | none => [.str "-"]
  | some d => if d = "" then [.str "-"] else [.date d]

/-- The message of the error thrown when a property of an absent object is read. -/
def typeErrorReading (property : String) : String :=
  "TypeError: Cannot read properties of undefined (reading " ++ property ++ ")"

/-- The method `_drawHeader(doc, invoice, pageWidth)`. The initials are guarded by
`invoice.from && invoice.from.name`; the company lines read `invoice.from.name` and so throw
when `invoice.from` is absent. -/
def _drawHeader (invoice : Invoice) (pageWidth : ℚ) : Except String (List Op) :=
  let logoX : ℚ := 40
  let logoY : ℚ := 90
  let logoSize : ℚ := 50
  let initials :=
    match invoice.sender.bind (·.name) with
    | some n => if n = "" then "SG" else _getInitials n
    | none => "SG"
  let companyLeft := logoX + logoSize + 12
  let boxWidth : ℚ := 230
  let boxX := pageWidth - 40 - boxWidth
  let boxY := logoY
  match invoice.sender with
  | none => .error (typeErrorReading "name")
  | some sender =>
    .ok
      [Op.circle (logoX + logoSize / 2) (logoY + logoSize / 2) (logoSize / 2),
       Op.text [.str initials] (logoX + 8) (logoY + 12) none .left,
       Op.text [.str (orStr sender.name "Company Name")] companyLeft (logoY + 4) none .left,
       Op.text [.str (orStr sender.email "")] companyLeft (logoY + 32) none .left,
       Op.text [.str (orStr sender.address "")] companyLeft (logoY + 48) (some 260) .left,
       Op.text [.str (orStr sender.city ""), .str ", ", .str (orStr sender.state ""), .str " ",
         .str (orStr sender.zip "")] companyLeft (logoY + 62) (some 260) .left,
       Op.roundedRect boxX (boxY - 6) boxWidth 92 10,
       Op.roundedRect boxX (boxY - 6) boxWidth 92 10,
       Op.text [.str "INVOICE #"] (boxX + 16) (boxY + 4) none .left,
       Op.text [.str (orStr invoice.invoiceNumber "-")] (boxX + 16) (boxY + 22) none .left,
       Op.text [.str "Date"] (boxX + 16) (boxY + 44) none .left,
       Op.text (_formatDate invoice.issueDate) (boxX + 16) (boxY + 62) none .left]

/-- The method `_drawBillTo(doc, invoice)`. The text cursor `doc.y` after the wrapped address is
computed by the PDF library from the address text; it is the parameter `cursorAfter`. -/
def _drawBillTo (page : Page) (invoice : Invoice) (cursorAfter : String → ℚ) : List Op :=
  let left : ℚ := 40
  let startY : ℚ := 200
  let nameY := startY + 28
  let addressY := nameY + 18
  let address := orStr (invoice.recipient.bind (·.address)) "-"
  let afterAddressY := cursorAfter address + 6
  let city := invoice.recipient.bind (·.city)
  [_drawLine page (startY - 6),
   Op.text [.str "Bill To:"] left startY none .left,
   Op.text [.str (orStr (invoice.recipient.bind (·.name)) "-")] left nameY none .left,
   Op.text [.str address] left addressY (some 380) .left,
   Op.text [.str (orStr city ""), .str (if orStr city "" = "" then "" else ", "),
     .str (orStr (invoice.recipient.bind (·.state)) ""), .str " ",
     .str (orStr (invoice.recipient.bind (·.zip)) "")] left afterAddressY none .left,
   Op.text [.str (orStr (invoice.recipient.bind (·.email)) "")] left (afterAddressY + 16)
     none .left,
   _drawLine page (afterAddressY + 44)]

/-- The whole of `_build(doc, invoice, qrBuffer)` (lines 58-78): waves, header, bill-to, then
the chain `_build` above. An error thrown by the header ends the pass before the table is
reached. The result is the operations appended and the invoice after the pass. -/
def buildDocument (page : Page) (invoice : Invoice) (cursorAfter : String → ℚ)
    (qr : Option QrBuffer) : Except String (List Op × Invoice) :=
  let pageWidth := page.width
  match _drawHeader invoice pageWidth with
  | .error e => .error e
  | .ok header =>
    let rest := _build page invoice qr
    .ok (_drawWaves page pageWidth ++ header ++ _drawBillTo page invoice cursorAfter
          ++ rest.tableOps ++ rest.totalsOps ++ rest.footerOps,
        rest.invoice)

/-! ## The generator entry point (`PDFGenerator.generatePDF`, lines 13-53) -/

/-- What the glyph provider `QRCode.toDataURL` resolves with: a data URL whose part after the
comma is absent (then `Buffer.from(undefined, "base64")` throws), or one carrying a payload. -/
inductive DataUrl where
  | noPayload
  | payload (img : QrBuffer)
deriving DecidableEq

/-- The text encoded in the glyph: `invoice.invoiceNumber || "INV-" + Date.now()`, where `now`
is the clock reading. -/
def qrText (invoice : Invoice) (now : ℕ) : String :=
  orStr invoice.invoiceNumber ("INV-" ++ toString now)

/-- The `try`/`catch` that pre-generates the glyph: `qrBuffer` stays `null` when the provider
rejects or when decoding its result throws. -/
def makeQrBuffer (provider : String → Except String DataUrl) (text : String) : Option QrBuffer :=
  match provider text with
  | .ok (.payload img) => some img
  | .ok .noPayload => none
  | .error _ => none

/-- The outcome of a resolved `generatePDF`: document information, the text handed to the glyph
provider, the drawing operations of the page and the invoice after the pass. -/
structure Rendered where
  title : String
  author : String
  glyphText : String
  ops : List Op
  invoice : Invoice
deriving DecidableEq

/-- The method `generatePDF(invoice)` of the generator: the document is an A4 page; an error
thrown by `_build` rejects the promise. -/
def PDFGenerator.generatePDF (provider : String → Except String DataUrl) (now : ℕ)
    (cursorAfter : String → ℚ) (invoice : Invoice) : Except String Rendered :=
  let text := qrText invoice now
  let qrBuffer := makeQrBuffer provider text
  match buildDocument a4 invoice cursorAfter qrBuffer with
  | .error e => .error e
  | .ok built =>
    .ok { title := "Invoice " ++ orStr invoice.invoiceNumber ""
          author := orStr (invoice.sender.bind (·.name)) "Invoice Generator"
          glyphText := text
          ops := built.1
          invoice := built.2 }

/-! ## The other templates (`templates/template2.js`, `template3.js`, `template4.js`) -/

/-- The table row that `_generateHTML` of template2 writes for an item (lines 633-641): the
contents of its three cells. -/
def template2Row (item : Item) : List (List Part) :=
  [[.str (orStr item.description "Item")],
   [.num (orNum item.quantity 1)],
   [.str "Rs.", .fixed2 (orNum item.price 0)]]

/-- The interpolation of an optional string field in a template string. -/
def interpolate (v : Option String) : Part := .str (v.getD "undefined")

/-- The expression `v.toFixed(2)` on a field read without a default: reading `toFixed` of an
absent value throws, `NaN` is written `NaN`. -/
def fieldToFixed (v : JsNum) : Except String Part :=
  match v with
  | .undef => .error (typeErrorReading "toFixed")
  | .nan => .ok (.str "NaN")
  | .num q => .ok (.fixed2 q)

/-- The three totals lines of template3 and template4, as text pieces, in order. -/
def plainTotals (invoice : Invoice) : Except String (List Part × List Part × List Part) :=
  match fieldToFixed invoice.subtotal with
  | .error e => .error e
  | .ok sub =>
    match fieldToFixed invoice.taxAmount with
    | .error e => .error e
    | .ok tax =>
      match fieldToFixed invoice.total with
      | .error e => .error e
      | .ok tot =>
        .ok ([.str "Subtotal: Rs.", sub], [.str "Tax: Rs.", tax], [.str "Total: Rs.", tot])

/-- The `forEach` callback of template3 for one item. -/
def template3Row (item : Item) : List Op :=
  [Op.flowText [.str (orStr item.description "-")] (some 50) .left,
   Op.flowText [.num (orNum item.quantity 0)] (some 360) .left,
   Op.flowText [.str "Rs.", .fixed2 (orNum item.price 0)] (some 450) .left]

/-- The function `generate(invoice)` of template3: the operations of the resolved document, or
the error the promise is rejected with. Calls to `moveDown` only move the cursor. -/
def template3Generate (page : Page) (invoice : Invoice) : Except String (List Op) :=
  let top : List Op :=
    [Op.rect 0 0 page.width 70,
     Op.text [.str (orStr (invoice.sender.bind (·.name)) "Company")] 50 25 none .left,
     Op.flowText [.str "Invoice #: ", interpolate invoice.invoiceNumber] none .right,
     Op.flowText [.str "Date: ", interpolate invoice.issueDate] none .right,
     Op.flowText [.str "Bill To:"] none .left,
     Op.flowText [.str (orStr (invoice.recipient.bind (·.name)) "-")] none .left,
     Op.flowText [.str (orStr (invoice.recipient.bind (·.address)) "-")] none .left,
     Op.flowText [.str "Description"] (some 50) .left,
     Op.flowText [.str "Qty"] (some 360) .left,
     Op.flowText [.str "Amount"] (some 450) .left]
  let rows := ((invoice.items.getD []).map template3Row).flatten
  match plainTotals invoice with
  | .error e => .error e
  | .ok t =>
    .ok (top ++ rows ++
      [Op.flowText t.1 none .right, Op.flowText t.2.1 none .right, Op.flowText t.2.2 none .right])

/-- The `forEach` callback of template4 for one item at height `y`. -/
def template4Row (y : ℚ) (item : Item) : List Op :=
  [Op.text [.str (orStr item.description "-")] 60 y none .left,
   Op.text [.num (orNum item.quantity 0)] 350 y none .left,
   Op.text [.str "Rs.", .fixed2 (orNum item.price 0)] 450 y none .left]

/-- The `forEach` loop of template4: the cursor `y` advances by 20 per item. -/
def template4Rows : List Item → ℚ → List Op × ℚ
  | [], y => ([], y)
  | item :: rest, y =>
    let r := template4Rows rest (y + 20)
    (template4Row y item ++ r.1, r.2)

/-- The function `generate(invoice)` of template4. -/
def template4Generate (page : Page) (invoice : Invoice) : Except String (List Op) :=
  let top : List Op :=
    [Op.rect 40 40 (page.width - 80) (page.height - 80),
     Op.text [.str (orStr (invoice.sender.bind (·.name)) "Company")] 60 60 none .left,
     Op.text [.str (orStr (invoice.sender.bind (·.address)) "")] 60 85 none .left,
     Op.rect (page.width - 220) 60 160 60,
     Op.text [.str "Invoice #: ", interpolate invoice.invoiceNumber] (page.width - 210) 70
       none .left,
     Op.text [.str "Date: ", interpolate invoice.issueDate] (page.width - 210) 95 none .left,
     Op.flowText [.str "Bill To:"] none .left,
     Op.flowText [.str (orStr (invoice.recipient.bind (·.name)) "-")] (some 60) .left,
     Op.flowText [.str (orStr (invoice.recipient.bind (·.address)) "-")] (some 60) .left,
     Op.text [.str "Description"] 60 250 none .left,
     Op.text [.str "Qty"] 350 250 none .left,
     Op.text [.str "Amount"] 450 250 none .left]
  let rows := template4Rows (invoice.items.getD []) (250 + 20)
  let y := rows.2
  match plainTotals invoice with
  | .error e => .error e
  | .ok t =>
    .ok (top ++ rows.1 ++
      [Op.text t.1 350 (y + 20) none .left, Op.text t.2.1 350 (y + 40) none .left,
       Op.text t.2.2 350 (y + 70) none .left])

/-! ## Template dispatch (`generatePDF` in `utils/pdf/index.js`) -/

/-- The keys of the `templates` object. -/
inductive TemplateKey where
  | template1
  | template2
  | template3
  | template4
deriving DecidableEq

/-- The names of the function properties that every plain object inherits from
`Object.prototype`. -/
def inheritedFunctions : List String :=
  ["constructor", "toString", "toLocaleString", "valueOf", "hasOwnProperty", "isPrototypeOf",
   "propertyIsEnumerable", "__defineGetter__", "__defineSetter__", "__lookupGetter__",
   "__lookupSetter__"]

/-- The value of the property access `templates[templateName]` on the object literal. -/
inductive Looked where
  /-- one of the four template modules -/
  | registered (key : TemplateKey)
  /-- a function inherited from `Object.prototype` -/
  | inheritedFunction (name : String)
  /-- the prototype object itself, reached through `__proto__` -/
  | objectPrototype
  /-- `undefined` -/
  | missing
deriving DecidableEq

/-- The property access `templates[templateName]`. -/
def lookupTemplate (templateName : String) : Looked :=
  if templateName = "template1" then .registered .template1
  else if templateName = "template2" then .registered .template2
  else if templateName = "template3" then .registered .template3
  else if templateName = "template4" then .registered .template4
  else if templateName ∈ inheritedFunctions then .inheritedFunction templateName
  else if templateName = "__proto__" then .objectPrototype
  else .missing

/-- The selection `templates[templateName] || templates["template1"]`: every value found is
truthy, only `undefined` falls back. -/
def selectTemplate (templateName : String) : Looked :=
  match lookupTemplate templateName with
  | .missing => .registered .template1
  | found => found

/-- The value a template resolves with. -/
inductive Yielded where
  /-- `null` or `undefined` -/
  | nullish
  /-- a value that is not a `Buffer` -/
  | notBuffer
  /-- a `Buffer` with these bytes -/
  | buffer (bytes : List ℕ)
deriving DecidableEq

/-- The bytes of the header `%PDF`. -/
def pdfMagic : List ℕ := [37, 80, 68, 70]

/-- The checks on `result` at lines 53-71. -/
def checkResult (result : Yielded) : Except String (List ℕ) :=
  match result with
  | .nullish => .error "Template returned null or undefined"
  | .notBuffer => .error "Template returned a value that is not a Buffer"
  | .buffer bytes =>
    if bytes.length = 0 then .error "Template returned empty buffer"
    else if bytes.take 4 ≠ pdfMagic then .error "Generated content is not a valid PDF"
    else .ok bytes

/-- The function `generatePDF(invoice, templateName)` of the dispatcher; `run key` is the
outcome of calling `generate` of the template module `key` on the invoice. All four modules
export a function `generate`. An inherited function has neither `generate` nor `generatePDF`
and is called itself; whatever it returns has no `generatePDF`, so `result` stays
`undefined` (or the call throws). The prototype object is no function and has no valid
method. -/
def Pdf.generatePDF (run : TemplateKey → Except String Yielded) (templateName : String) :
    Except String (List ℕ) :=
  match selectTemplate templateName with
  | .registered key =>
    match run key with
    | .error e => .error e
    | .ok result => checkResult result
  | .inheritedFunction name =>
    if name ∈ ["constructor", "toString", "isPrototypeOf"] then checkResult .nullish
    else .error "TypeError: Cannot convert undefined or null to object"
  | .objectPrototype => .error ("Template " ++ templateName ++ " has no valid generate method")
  | .missing => .error ("Template " ++ templateName ++ " not found")

/-! ## Create route (`router.post("/")` in `routes/invoices.js`, lines 62-119) -/

/-- Conversion to a number in an arithmetic expression; `none` stands for `NaN`. -/
def JsNum.toNumber : JsNum → Option ℚ
  | .num q => some q
  | _ => none

/-- The field value holding the result of an arithmetic expression. -/
def JsNum.ofNumber : Option ℚ → JsNum
  | some q => .num q
  | none => .nan

/-- The comparison `v <= 0`, which is false for `undefined` and `NaN`. -/
def leZero : JsNum → Bool
  | .num q => decide (q ≤ 0)
  | _ => false

/-- The rejection test of the item loop:
`!item.description || item.quantity <= 0 || item.price <= 0`. -/
def itemRejected (item : Item) : Bool :=
  (match item.description with
    | some s => decide (s = "")
    | none => true) || leZero item.quantity || leZero item.price

/-- The reducer `(sum, item) => sum + item.quantity * item.price`. -/
def addLine (sum : Option ℚ) (item : Item) : Option ℚ :=
  match sum, item.quantity.toNumber, item.price.toNumber with
  | some s, some q, some p => some (s + q * p)
  | _, _, _ => none

/-- The expression `req.body.items.reduce(..., 0)`. -/
def createSubtotal (items : List Item) : Option ℚ := items.foldl addLine (some 0)

/-- The object `invoiceData` built by the create route from the request body and the generated
invoice number; `none` stands for a response with status 400. The schema validation applied
when the record is saved is not part of this function. -/
def createInvoiceData (body : Invoice) (invoiceNumber : String) : Option Invoice :=
  if body.sender.isNone || body.recipient.isNone then none
  else
    match body.items with
    | none => none
    | some items =>
      if items.length = 0 then none
      else if items.any itemRejected then none
      else
        let subtotal := createSubtotal items
        let taxRate := orNum body.taxRate 0
        let discountRate := orNum body.discountRate 0
        let taxAmount := subtotal.map (· * (taxRate / 100))
        let discountAmount := subtotal.map (· * (discountRate / 100))
        let total :=
          match subtotal, taxAmount, discountAmount with
          | some s, some t, some d => some (s + t - d)
          | _, _, _ => none
        some { body with
          invoiceNumber := some invoiceNumber
          subtotal := JsNum.ofNumber subtotal
          taxAmount := JsNum.ofNumber taxAmount
          discountAmount := JsNum.ofNumber discountAmount
          total := JsNum.ofNumber total }

/-- The expression `text.split("-")[1]` on the characters of `text`: the segment between the
first and the second dash, `none` (`undefined`) when there is no dash. -/
def secondSegment (text : List Char) : Option (List Char) :=
  match text.dropWhile (fun c => c ≠ '-') with
  | [] => none
  | _ :: rest => some (rest.takeWhile (fun c => c ≠ '-'))

/-- The value of a character as a digit in the radix 10 or 16. -/
def digitValue (radix : ℕ) (c : Char) : Option ℕ :=
  if c.isDigit then some (c.toNat - 48)
  else if radix = 16 ∧ 'a'.toNat ≤ c.toNat ∧ c.toNat ≤ 'f'.toNat then some (c.toNat - 87)
  else if radix = 16 ∧ 'A'.toNat ≤ c.toNat ∧ c.toNat ≤ 'F'.toNat then some (c.toNat - 55)
  else none

/-- The number written by the longest prefix of digits, `none` when the prefix is empty. -/
def leadingNumber (radix : ℕ) (text : List Char) : Option ℕ :=
  match text.takeWhile (fun c => (digitValue radix c).isSome) with
  | [] => none
  | digits => some (digits.foldl (fun acc c => acc * radix + (digitValue radix c).getD 0) 0)

/-- The call `parseInt(text)` without a radix: leading whitespace is skipped (the characters
`Char.isWhitespace` knows), a sign and a prefix `0x` are read, then the longest prefix of
digits; `none` stands for `NaN`. An `undefined` argument is read as the text `undefined`. -/
def parseInt (text : Option (List Char)) : Option ℤ :=
  match text with
  | none => none
  | some chars =>
    let trimmed := chars.dropWhile Char.isWhitespace
    let signed : ℤ × List Char :=
      match trimmed with
      | '-' :: rest => (-1, rest)
      | '+' :: rest => (1, rest)
      | rest => (1, rest)
    let number :=
      match signed.2 with
      | '0' :: 'x' :: rest => leadingNumber 16 rest
      | '0' :: 'X' :: rest => leadingNumber 16 rest
      | rest => leadingNumber 10 rest
    number.map (fun n => signed.1 * (n : ℤ))

/-- The call `text.padStart(4, "0")`. -/
def padStart4 (text : String) : String := "".pushn '0' (4 - text.length) ++ text

/-- The invoice number generated at lines 86-95 from the last stored invoice (`none` when
there is none yet). -/
def nextInvoiceNumber (lastInvoice : Option Invoice) : String :=
  let nextNumber : ℤ :=
    match lastInvoice.bind (·.invoiceNumber) with
    | none => 1
    | some number =>
      if number = "" then 1
      else
        match parseInt (secondSegment number.data) with
        | none => 1
        | some lastNum => lastNum + 1
  "INV-" ++ padStart4 (toString nextNumber)

/-- The create route up to the object handed to the model: the invoice number comes from the
last stored invoice, the rest from the request body. -/
def createInvoice (lastInvoice : Option Invoice) (body : Invoice) : Option Invoice :=
  createInvoiceData body (nextInvoiceNumber lastInvoice)

/-! ## Sample inputs -/

/-- An invoice with a sender and six items on which no field is set. -/
def sixItems : Invoice :=
  { sender := some { name := some "Acme" }, items := some (List.replicate 6 {}) }

/-- The single line item `{description: "Widget", quantity: 2, price: 100}`. -/
def widget : Item := { description := some "Widget", quantity := .num 2, price := .num 100 }

/-- An invoice with one item, tax rate 18 and a subtotal, without amounts and total. -/
def ratesOnly : Invoice :=
  { items := some [widget], subtotal := .num 200, taxRate := .num 18, discountRate := .num 10 }

/-- An invoice with one item and no monetary field. -/
def itemsOnly : Invoice := { items := some [widget] }

/-- An invoice whose explicit tax amount and total are 0 while the rate is 18. -/
def zeroTax : Invoice :=
  { items := some [widget], subtotal := .num 200, taxRate := .num 18, taxAmount := .num 0,
    total := .num 0 }

/-- An invoice carrying an explicit negative total. -/
def negativeTotal : Invoice :=
  { items := some [widget], subtotal := .num 200, total := .num (-5) }

/-- A request body accepted by the create route whose discount rate exceeds 100. -/
def bigDiscountBody : Invoice :=
  { sender := some {}, recipient := some {}, items := some [widget], discountRate := .num 200 }

/-- An item with a negative quantity and a negative price. -/
def negativeItem : Item :=
  { description := some "Refund", quantity := .num (-3), price := .num (-5) }

/-- An item on which nothing is set. -/
def emptyItem : Item := {}

/-- A template outcome: a buffer that starts with `%PDF-`. -/
def goodPdf : Yielded := .buffer [37, 80, 68, 70, 45]

/-- An invoice with both parties and one item but without `subtotal`, `taxAmount`, `total`. -/
def noMoney : Invoice :=
  { invoiceNumber := some "INV-0001", sender := some { name := some "Acme" },
    recipient := some { name := some "Client" }, items := some [widget] }

/-- An invoice without `from`: recipient, one item and all amounts are present. -/
def noSender : Invoice :=
  { invoiceNumber := some "INV-0001", recipient := some { name := some "Client" },
    items := some [widget], subtotal := .num 200, taxAmount := .num 0, total := .num 200 }

/-- An invoice with a sender and nothing else: no items, no invoice number. -/
def senderOnly : Invoice := { sender := some { name := some "Acme" } }

/-- A glyph provider that always rejects. -/
def failingProvider : String → Except String DataUrl := fun _ => .error "QR generation failed"

/-- A glyph provider that always yields a valid bitmap. -/
def workingProvider : String → Except String DataUrl := fun _ => .ok (.payload .valid)

/-- A stand-in for the library cursor after the address: one line of text below Y 246. -/
def oneLine : String → ℚ := fun _ => 259

/-- The request body with tax rate 18, discount rate 0 and the single item Widget. -/
def widgetBody : Invoice :=
  { sender := some { name := some "Acme" }, recipient := some { name := some "Client" },
    items := some [widget], taxRate := .num 18, discountRate := .num 0 }

/-- A request body whose only item has a description and a price but no quantity. -/
def noQuantityBody : Invoice :=
  { sender := some { name := some "Acme" }, recipient := some { name := some "Client" },
    items := some [{ description := some "Widget", price := .num 100 }] }

/-- The request body `widgetBody` with values supplied for the five computed fields. -/
def forgedBody : Invoice :=
  { widgetBody with
    invoiceNumber := some "INV-9999", subtotal := .num 1, taxAmount := .num 1,
    discountAmount := .num 1, total := .num 1 }

/-- A stored invoice numbered `INV-0007`. -/
def storedSeven : Invoice := { invoiceNumber := some "INV-0007" }

/-- An invoice with an empty item list and no monetary field. -/
def emptyInvoice : Invoice := { sender := some { name := some "Acme" }, items := some [] }

/-! ## Observations -/

/-- The text pieces of an operation that draws text. -/
def opText : Op → Option (List Part)
  | .text t _ _ _ _ => some t
  | .flowText t _ _ => some t
  | _ => none

/-- The texts drawn by a sequence of operations, in order. -/
def textsOf (ops : List Op) : List (List Part) := ops.filterMap opText

/-- The Y coordinate of an operation that draws text at a given position. -/
def opTextY : Op → Option ℚ
  | .text _ _ y _ _ => some y
  | _ => none

/-- The Y coordinate of a positioned text or of a horizontal rule. -/
def opY : Op → Option ℚ
  | .text _ _ y _ _ => some y
  | .line _ y _ _ => some y
  | _ => none

/-- Whether an operation places a bitmap. -/
def isImage : Op → Bool
  | .image _ _ _ _ => true
  | _ => false


/-- The value of the `Rs.` amount printed by an operation, if it prints one. -/
def shownAmount : Op → Option ℚ
  | .text [.str "Rs.", .fixed2 q] _ _ _ _ => some q
  | .text [.str "-Rs.", .fixed2 q] _ _ _ _ => some q
  | _ => none

/-! ## Layout lemmas -/

theorem drawRows_snd (w : ℚ) (items : List Item) (idx : ℕ) (y : ℚ) :
    (drawRows w items idx y).2 = y + (items.length : ℚ) * rowHeight := by
  induction items generalizing idx y with
  | nil => simp [drawRows]
  | cons item rest ih =>
    simp only [drawRows, ih, List.length_cons]
    push_cast
    ring

theorem totalRows_eq_length (invoice : Invoice) :
    totalRows invoice = (invoice.items.getD []).length := by
  unfold totalRows
  cases invoice.items <;> rfl

theorem drawItemsTable_ret (page : Page) (invoice : Invoice) :
    (_drawItemsTable page invoice).ret = tableTop + tableHeight invoice + 12 := by
  simp only [_drawItemsTable, drawRows_snd, tableHeight, totalRows_eq_length]
  ring

theorem build_tableBottomY (page : Page) (invoice : Invoice) (qr : Option QrBuffer) :
    (_build page invoice qr).tableBottomY = tableTop + tableHeight invoice + 12 := by
  simp only [_build, drawItemsTable_ret]

theorem build_totalsBottomY (page : Page) (invoice : Invoice) (qr : Option QrBuffer) :
    (_build page invoice qr).totalsBottomY = 500 + 28 * (totalRows invoice : ℚ) := by
  simp only [_build, _drawTotalsBox, drawItemsTable_ret, boxY, boxHeight, tableTop, tableHeight,
    headerHeight, rowHeight]
  ring

/-- With a sender on the invoice `_build` completes. -/
theorem buildDocument_ok_of_sender (page : Page) (invoice : Invoice)
    (cursorAfter : String → ℚ) (qr : Option QrBuffer) (sender : Party)
    (h : invoice.sender = some sender) :
    ∃ r, buildDocument page invoice cursorAfter qr = .ok r ∧
      r.2 = (_build page invoice qr).invoice ∧
      ∃ before, r.1 = before ++ (_build page invoice qr).footerOps := by
  simp only [buildDocument, _drawHeader, h]
  exact ⟨_, rfl, rfl, _, rfl⟩

/-- With a sender on the invoice the header is drawn. -/
theorem drawHeader_ok_of_sender (invoice : Invoice) (pageWidth : ℚ) (sender : Party)
    (h : invoice.sender = some sender) : ∃ header, _drawHeader invoice pageWidth = .ok header := by
  simp only [_drawHeader, h]
  exact ⟨_, rfl⟩

/-- The outcome of the whole `_build` after a header that completed: waves, header, bill-to,
then the operations of the table, the totals panel and the footer. -/
theorem buildDocument_of_header (page : Page) (invoice : Invoice) (cursorAfter : String → ℚ)
    (qr : Option QrBuffer) (header : List Op) (h : _drawHeader invoice page.width = .ok header) :
    buildDocument page invoice cursorAfter qr =
      .ok (_drawWaves page page.width ++ header ++ _drawBillTo page invoice cursorAfter
            ++ (_build page invoice qr).tableOps ++ (_build page invoice qr).totalsOps
            ++ (_build page invoice qr).footerOps,
          (_build page invoice qr).invoice) := by
  simp only [buildDocument, h]

/-! ## Claims on the layout -/

/-- C1: the height of the items table drawn by `_drawItemsTable` is
`headerHeight + n * rowHeight` with `headerHeight = 30` and `rowHeight = 28`, where `n` is the
number of items; it is the height of the border rectangle drawn first, and it depends on the
item list only through its length. -/
theorem C1_table_height_linear (page : Page) (invoice : Invoice) (items : List Item) :
    headerHeight = 30 ∧ rowHeight = 28 ∧
    tableHeight invoice = headerHeight + (totalRows invoice : ℚ) * rowHeight ∧
    totalRows { invoice with items := some items } = items.length ∧
    tableHeight { invoice with items := some items } = 30 + (items.length : ℚ) * 28 ∧
    (_drawItemsTable page invoice).ops.head? =
      some (Op.rect 40 320 (page.width - 80) (30 + (totalRows invoice : ℚ) * 28)) := by
  refine ⟨rfl, rfl, rfl, rfl, ?_, ?_⟩
  · simp [tableHeight, totalRows, headerHeight, rowHeight]
  · simp [_drawItemsTable, tableHeight, tableLeft, tableTop, tableWidth, headerHeight, rowHeight]

/-- C2: in `_build`, the top of the totals panel (`boxY`, the Y of the rounded rectangle that
`_drawTotalsBox` draws first) equals the bottom of the items table (`top + tableHeight`) plus
20: the 12 added by the return value of `_drawItemsTable` and the 8 added by
`_drawTotalsBox`. -/
theorem C2_totals_top_below_table (page : Page) (invoice : Invoice) (qr : Option QrBuffer) :
    (_build page invoice qr).tableBottomY = (tableTop + tableHeight invoice) + 12 ∧
    boxY (_build page invoice qr).tableBottomY = (tableTop + tableHeight invoice) + 12 + 8 ∧
    boxY (_build page invoice qr).tableBottomY = (tableTop + tableHeight invoice) + 20 ∧
    (tableTop + tableHeight invoice) + 20 ≤ boxY (_build page invoice qr).tableBottomY ∧
    (_build page invoice qr).totalsOps.head? =
      some (Op.roundedRect (page.width - 40 - 280)
        (320 + (30 + (totalRows invoice : ℚ) * 28) + 20) 280 130 8) := by
  have h := build_tableBottomY page invoice qr
  refine ⟨h, ?_, ?_, ?_, ?_⟩
  · rw [h, boxY]
  · rw [h, boxY]; ring
  · rw [h, boxY]; linarith
  · have h2 : (_build page invoice qr).totalsOps =
        (_drawTotalsBox page (_drawItemsTable page invoice).invoice
          (_build page invoice qr).tableBottomY).1 := rfl
    rw [h2, h]
    simp only [_drawTotalsBox, List.cons_append, List.nil_append, List.head?_cons, boxX, boxY,
      boxWidth, boxHeight, tableTop, tableHeight, headerHeight, rowHeight]
    congr 2
    ring

/-- C3: the footer top used by `_drawFooter` in `_build` (the Y of the rule drawn first) is
`min(totalsBottom + 28, pageHeight - 160)` and never exceeds `pageHeight - 160`, for every
invoice and page. -/
theorem C3_footer_top_clamped (page : Page) (invoice : Invoice) (qr : Option QrBuffer) :
    (_build page invoice qr).footerOps.head? =
      some (Op.line 40 (min ((_build page invoice qr).totalsBottomY + 28) (page.height - 160))
        (page.width - 40) (min ((_build page invoice qr).totalsBottomY + 28) (page.height - 160))) ∧
    footerTop page (_build page invoice qr).totalsBottomY =
      min ((_build page invoice qr).totalsBottomY + 28) (page.height - 160) ∧
    footerTop page (_build page invoice qr).totalsBottomY ≤ page.height - 160 := by
  refine ⟨?_, rfl, min_le_right _ _⟩
  simp [_build, _drawFooter, _drawLine, footerTop]

/-- C4 (counterexample): for an invoice with a sender and six items on an A4 page `_build`
completes and ends with the footer; the totals panel ends at 668, so the gap would put the
footer at 696, but the footer top, the Y of the rule the footer starts with, is clamped to
681.89. -/
theorem C4_footer_gap_fails_on_six_items :
    sixItems.sender = some { name := some "Acme" } ∧
    (∃ r, buildDocument a4 sixItems oneLine none = .ok r ∧
      ∃ before, r.1 = before ++ (_build a4 sixItems none).footerOps) ∧
    (_build a4 sixItems none).totalsBottomY = 668 ∧
    (_build a4 sixItems none).footerOps.head? = some (_drawLine a4 (68189 / 100)) ∧
    footerTop a4 (_build a4 sixItems none).totalsBottomY = 68189 / 100 ∧
    ¬ ((_build a4 sixItems none).totalsBottomY + 28 ≤
        footerTop a4 (_build a4 sixItems none).totalsBottomY) := by
  have hb : (_build a4 sixItems none).totalsBottomY = 668 := by
    rw [build_totalsBottomY]
    norm_num [sixItems, totalRows]
  have hf : footerTop a4 668 = 68189 / 100 := by
    norm_num [footerTop, a4]
  obtain ⟨r, hr, -, before, hbefore⟩ :=
    buildDocument_ok_of_sender a4 sixItems oneLine none _ rfl
  refine ⟨rfl, ⟨r, hr, before, hbefore⟩, hb, ?_, by rw [hb, hf], ?_⟩
  · have hfoot : (_build a4 sixItems none).footerOps =
        _drawFooter a4 (_drawItemsTable a4 sixItems).invoice a4.width
          (_build a4 sixItems none).totalsBottomY none := rfl
    rw [hfoot, hb]
    simp only [_drawFooter, List.cons_append, List.head?_cons, hf]
  · rw [hb, hf]
    norm_num

/-- C4 (amended): the footer top keeps the 28-unit gap below the totals panel exactly when
`totalsBottom + 28` does not exceed `pageHeight - 160`; then the footer top is
`totalsBottom + 28`, and otherwise it is `pageHeight - 160`, which is less. Here
`totalsBottom = 500 + 28 * n` for `n` items. -/
theorem C4_footer_gap_iff_fits (page : Page) (invoice : Invoice) (qr : Option QrBuffer) :
    ((_build page invoice qr).totalsBottomY + 28 ≤
        footerTop page (_build page invoice qr).totalsBottomY ↔
      (_build page invoice qr).totalsBottomY + 28 ≤ page.height - 160) ∧
    ((_build page invoice qr).totalsBottomY + 28 ≤ page.height - 160 ↔
      footerTop page (_build page invoice qr).totalsBottomY =
        (_build page invoice qr).totalsBottomY + 28) ∧
    (¬ ((_build page invoice qr).totalsBottomY + 28 ≤ page.height - 160) ↔
      footerTop page (_build page invoice qr).totalsBottomY = page.height - 160 ∧
      footerTop page (_build page invoice qr).totalsBottomY <
        (_build page invoice qr).totalsBottomY + 28) ∧
    (_build page invoice qr).totalsBottomY = 500 + 28 * (totalRows invoice : ℚ) := by
  refine ⟨?_, ?_, ?_, build_totalsBottomY page invoice qr⟩
  · unfold footerTop
    exact ⟨fun h => le_trans h (min_le_right _ _), fun h => le_min le_rfl h⟩
  · unfold footerTop
    exact ⟨fun h => min_eq_left h, fun h => by rw [← h]; exact min_le_right _ _⟩
  · unfold footerTop
    constructor
    · intro h
      have h2 := lt_of_not_le h
      exact ⟨min_eq_right h2.le, by rw [min_eq_right h2.le]; exact h2⟩
    · rintro ⟨h1, h2⟩ h
      rw [min_eq_left h] at h2
      exact lt_irrefl _ h2

/-- C5: for every table width `W` (page width `W + 80`) the three column widths of
`_drawItemsTable` sum to `W`, and the amount column takes the rounding remainder:
`0.30 * W ≤ amtW < 0.30 * W + 2`. The widths are those of the three header cells, which are
laid side by side from the left edge of the table. -/
theorem C5_column_widths_sum (W H : ℚ) (invoice : Invoice) :
    descW W + qtyW W + amtW W = W ∧
    descW W = (⌊W * (1 / 2)⌋ : ℤ) ∧ qtyW W = (⌊W * (1 / 5)⌋ : ℤ) ∧
    (3 / 10) * W ≤ amtW W ∧ amtW W < (3 / 10) * W + 2 ∧
    ((_drawItemsTable ⟨W + 80, H⟩ invoice).ops.drop 2).take 3 =
      [Op.text [.str "Description"] 40 (661 / 2) (some (descW W)) .center,
       Op.text [.str "Quantity"] (40 + descW W) (661 / 2) (some (qtyW W)) .center,
       Op.text [.str "Amount"] (40 + descW W + qtyW W) (661 / 2) (some (amtW W)) .center] := by
  have h1 := Int.floor_le (W * (1 / 2))
  have h2 := Int.lt_floor_add_one (W * (1 / 2))
  have h3 := Int.floor_le (W * (1 / 5))
  have h4 := Int.lt_floor_add_one (W * (1 / 5))
  refine ⟨?_, rfl, rfl, ?_, ?_, ?_⟩
  · unfold amtW; ring
  · unfold amtW descW qtyW; linarith
  · unfold amtW descW qtyW; linarith
  · have hw : tableWidth ⟨W + 80, H⟩ = W := by simp [tableWidth]
    simp only [_drawItemsTable, hw, List.cons_append, List.nil_append, List.drop_succ_cons,
      List.drop_zero, List.take_succ_cons, List.take_zero, tableLeft, tableTop, headerHeight]
    norm_num

/-! ## Claims on the totals -/

/-- The operations appended by `_drawTotalsBox`, written out. -/
theorem drawTotalsBox_ops (page : Page) (invoice : Invoice) (startY : ℚ) :
    (_drawTotalsBox page invoice startY).1 =
      [Op.roundedRect (boxX page) (boxY startY) boxWidth boxHeight 8]
      ++ printLine page (boxY startY + 14) [.str "Subtotal"]
          [.str "Rs.", .fixed2 (computeTotals invoice).subtotal]
      ++ printLine page (boxY startY + 14 + 22)
          [.str "Tax (", .num (computeTotals invoice).taxRate, .str "%)"]
          [.str "Rs.", .fixed2 (computeTotals invoice).taxAmount]
      ++ (if 0 < (computeTotals invoice).discountRate then
            printLine page (boxY startY + 14 + 22 + 22)
              [.str "Discount (", .num (computeTotals invoice).discountRate, .str "%)"]
              [.str "-Rs.", .fixed2 (computeTotals invoice).discountAmount]
          else [])
      ++ [Op.line (boxX page + 10)
            (if 0 < (computeTotals invoice).discountRate then boxY startY + 14 + 22 + 22 + 22
              else boxY startY + 14 + 22 + 22)
            (boxX page + boxWidth - 10)
            (if 0 < (computeTotals invoice).discountRate then boxY startY + 14 + 22 + 22 + 22
              else boxY startY + 14 + 22 + 22)]
      ++ printLine page
          ((if 0 < (computeTotals invoice).discountRate then boxY startY + 14 + 22 + 22 + 22
              else boxY startY + 14 + 22 + 22) + 8)
          [.str "Total"] [.str "Rs.", .fixed2 (computeTotals invoice).total] := rfl

/-- The amounts printed in the totals panel are, in order, the subtotal, the tax amount, the
discount amount when the discount rate is positive, and the total. -/
theorem drawTotalsBox_shown (page : Page) (invoice : Invoice) (startY : ℚ) :
    (_drawTotalsBox page invoice startY).1.filterMap shownAmount =
      if 0 < (computeTotals invoice).discountRate then
        [(computeTotals invoice).subtotal, (computeTotals invoice).taxAmount,
         (computeTotals invoice).discountAmount, (computeTotals invoice).total]
      else
        [(computeTotals invoice).subtotal, (computeTotals invoice).taxAmount,
         (computeTotals invoice).total] := by
  rw [drawTotalsBox_ops]
  by_cases h : 0 < (computeTotals invoice).discountRate
  · simp [h, printLine, shownAmount, List.filterMap_cons]
  · simp [h, printLine, shownAmount, List.filterMap_cons]

/-- C6: when the invoice omits `total`, the total computed by the totals panel, which is the
last amount it prints, is `max(0, subtotal + taxAmount - discountAmount)` for the subtotal, tax
amount and discount amount that the panel computes for its other lines. -/
theorem C6_omitted_total_is_clamped_sum (page : Page) (invoice : Invoice) (startY : ℚ)
    (h : invoice.total = .undef) :
    (computeTotals invoice).total =
      max 0 ((computeTotals invoice).subtotal + (computeTotals invoice).taxAmount
        - (computeTotals invoice).discountAmount) ∧
    ((_drawTotalsBox page invoice startY).1.filterMap shownAmount).getLast? =
      some (max 0 ((computeTotals invoice).subtotal + (computeTotals invoice).taxAmount
        - (computeTotals invoice).discountAmount)) := by
  have ht : (computeTotals invoice).total =
      max 0 ((computeTotals invoice).subtotal + (computeTotals invoice).taxAmount
        - (computeTotals invoice).discountAmount) := by
    simp [computeTotals, h, orNum]
  refine ⟨ht, ?_⟩
  rw [drawTotalsBox_shown, ← ht]
  split <;> simp

/-- C6 (witness): subtotal 200, tax rate 18, discount rate 10 and no total give 216. -/
theorem C6_omitted_total_witness :
    ratesOnly.total = .undef ∧
    ((computeTotals ratesOnly).total =
      max 0 ((computeTotals ratesOnly).subtotal + (computeTotals ratesOnly).taxAmount
        - (computeTotals ratesOnly).discountAmount) ∧
    ((_drawTotalsBox a4 ratesOnly 0).1.filterMap shownAmount).getLast? =
      some (max 0 ((computeTotals ratesOnly).subtotal + (computeTotals ratesOnly).taxAmount
        - (computeTotals ratesOnly).discountAmount))) ∧
    (computeTotals ratesOnly).total = 216 :=
  ⟨rfl, C6_omitted_total_is_clamped_sum a4 ratesOnly 0 rfl, by
    norm_num [computeTotals, ratesOnly, orNum]⟩

/-- An explicit value other than `0` is the value the panel uses. -/
theorem explicit_nonzero_kept (invoice : Invoice) :
    (∀ q, q ≠ 0 → invoice.taxAmount = .num q → (computeTotals invoice).taxAmount = q) ∧
    (∀ q, q ≠ 0 → invoice.discountAmount = .num q →
      (computeTotals invoice).discountAmount = q) ∧
    (∀ q, q ≠ 0 → invoice.total = .num q → (computeTotals invoice).total = q) := by
  refine ⟨?_, ?_, ?_⟩ <;> intro q hq h <;> simp [computeTotals, h, orNum, hq]

/-- C7 (evaluation at the failing input): for an invoice with subtotal 200, tax rate 18 and
the explicit values `taxAmount = 0` and `total = 0`, the panel prints the tax amount 36 and
the total 236 instead of the explicit zeros. -/
theorem C7_explicit_zero_overridden :
    zeroTax.taxAmount = .num 0 ∧ zeroTax.total = .num 0 ∧
    (computeTotals zeroTax).taxAmount = 36 ∧ (computeTotals zeroTax).total = 236 ∧
    (_drawTotalsBox a4 zeroTax 0).1.filterMap shownAmount = [200, 36, 236] := by
  have h1 : (computeTotals zeroTax).subtotal = 200 := by
    norm_num [computeTotals, zeroTax, orNum]
  have h2 : (computeTotals zeroTax).taxAmount = 36 := by
    norm_num [computeTotals, zeroTax, orNum]
  have h3 : (computeTotals zeroTax).total = 236 := by
    norm_num [computeTotals, zeroTax, orNum]
  have h4 : (computeTotals zeroTax).discountRate = 0 := by
    norm_num [computeTotals, zeroTax, orNum]
  refine ⟨rfl, rfl, h2, h3, ?_⟩
  rw [drawTotalsBox_shown, h1, h2, h3, h4]
  simp

/-- C8 (counterexample): for the invoice whose only content is the item
`{description: "Widget", quantity: 2, price: 100}`, the sum of `quantity * price` is 200 but
the subtotal used and printed by the panel is 0. -/
theorem C8_subtotal_not_recomputed :
    itemsOnly.subtotal = .undef ∧ itemsOnly.items = some [widget] ∧
    createSubtotal [widget] = some 200 ∧
    (computeTotals itemsOnly).subtotal = 0 ∧
    ((_drawTotalsBox a4 itemsOnly 0).1.filterMap shownAmount).head? = some 0 ∧
    some (computeTotals itemsOnly).subtotal ≠ createSubtotal [widget] := by
  have h1 : (computeTotals itemsOnly).subtotal = 0 := by
    simp [computeTotals, itemsOnly, orNum]
  have h2 : createSubtotal [widget] = some 200 := by
    norm_num [createSubtotal, addLine, widget, JsNum.toNumber]
  refine ⟨rfl, rfl, h2, h1, ?_, ?_⟩
  · rw [drawTotalsBox_shown, h1]
    split <;> simp
  · rw [h1, h2]
    norm_num

/-- C8 (amended): when the invoice omits `subtotal`, the subtotal used and printed by the totals
panel is 0, whatever the items are. -/
theorem C8_omitted_subtotal_is_zero (page : Page) (invoice : Invoice) (startY : ℚ)
    (h : invoice.subtotal = .undef) :
    (computeTotals invoice).subtotal = 0 ∧
    ((_drawTotalsBox page invoice startY).1.filterMap shownAmount).head? = some 0 := by
  have h1 : (computeTotals invoice).subtotal = 0 := by
    simp [computeTotals, h, orNum]
  refine ⟨h1, ?_⟩
  rw [drawTotalsBox_shown, h1]
  split <;> simp

/-- C8 (witness): the amended statement at the one-item invoice without monetary fields. -/
theorem C8_omitted_subtotal_witness :
    itemsOnly.subtotal = .undef ∧
    (computeTotals itemsOnly).subtotal = 0 ∧
    ((_drawTotalsBox a4 itemsOnly 0).1.filterMap shownAmount).head? = some 0 :=
  ⟨rfl, C8_omitted_subtotal_is_zero a4 itemsOnly 0 rfl⟩

/-- C9: when the invoice omits `taxAmount`, the tax amount used by the totals panel (the second
amount it prints) is `subtotal * taxRate / 100`; when it omits `discountAmount`, the discount
amount used is `subtotal * discountRate / 100`; the rate is the invoice's rate, and an absent
rate counts as 0. -/
theorem C9_omitted_amounts_from_rates (page : Page) (invoice : Invoice) (startY : ℚ) :
    (invoice.taxAmount = .undef →
      (computeTotals invoice).taxAmount =
        (computeTotals invoice).subtotal * (computeTotals invoice).taxRate / 100 ∧
      (((_drawTotalsBox page invoice startY).1.filterMap shownAmount).drop 1).head? =
        some ((computeTotals invoice).subtotal * (computeTotals invoice).taxRate / 100)) ∧
    (invoice.discountAmount = .undef →
      (computeTotals invoice).discountAmount =
        (computeTotals invoice).subtotal * (computeTotals invoice).discountRate / 100) ∧
    (∀ r, invoice.taxRate = .num r → (computeTotals invoice).taxRate = r) ∧
    (∀ r, invoice.discountRate = .num r → (computeTotals invoice).discountRate = r) ∧
    (invoice.taxRate = .undef → (computeTotals invoice).taxRate = 0) ∧
    (invoice.discountRate = .undef → (computeTotals invoice).discountRate = 0) := by
  refine ⟨?_, ?_, ?_, ?_, ?_, ?_⟩
  · intro h
    have ht : (computeTotals invoice).taxAmount =
        (computeTotals invoice).subtotal * (computeTotals invoice).taxRate / 100 := by
      simp [computeTotals, h, orNum]
    refine ⟨ht, ?_⟩
    rw [drawTotalsBox_shown, ← ht]
    split <;> simp
  · intro h
    simp [computeTotals, h, orNum]
  · intro r h
    by_cases hr : r = 0 <;> simp [computeTotals, h, orNum, hr]
  · intro r h
    by_cases hr : r = 0 <;> simp [computeTotals, h, orNum, hr]
  · intro h
    simp [computeTotals, h, orNum]
  · intro h
    simp [computeTotals, h, orNum]

/-- C9 (witness): subtotal 200 with tax rate 18 and discount rate 10 and no amounts gives the
tax amount 36 and the discount amount 20. -/
theorem C9_omitted_amounts_witness :
    ratesOnly.taxAmount = .undef ∧ ratesOnly.discountAmount = .undef ∧
    ((computeTotals ratesOnly).taxAmount =
        (computeTotals ratesOnly).subtotal * (computeTotals ratesOnly).taxRate / 100 ∧
      (((_drawTotalsBox a4 ratesOnly 0).1.filterMap shownAmount).drop 1).head? =
        some ((computeTotals ratesOnly).subtotal * (computeTotals ratesOnly).taxRate / 100)) ∧
    (computeTotals ratesOnly).discountAmount =
      (computeTotals ratesOnly).subtotal * (computeTotals ratesOnly).discountRate / 100 ∧
    (computeTotals ratesOnly).taxRate = 18 ∧
    (computeTotals ratesOnly).taxAmount = 36 ∧ (computeTotals ratesOnly).discountAmount = 20 :=
  ⟨rfl, rfl, (C9_omitted_amounts_from_rates a4 ratesOnly 0).1 rfl,
    (C9_omitted_amounts_from_rates a4 ratesOnly 0).2.1 rfl,
    (C9_omitted_amounts_from_rates a4 ratesOnly 0).2.2.1 18 rfl,
    by norm_num [computeTotals, ratesOnly, orNum],
    by norm_num [computeTotals, ratesOnly, orNum]⟩

/-- The record that the create route builds for one item of amount 200 with discount rate 200
carries the total `-200` (the route does not clamp), and the panel prints that total. -/
theorem create_route_total_negative :
    ∃ r, createInvoiceData bigDiscountBody "INV-0001" = some r ∧ r.total = .num (-200) ∧
      (computeTotals r).total = -200 ∧
      ((_drawTotalsBox a4 r 0).1.filterMap shownAmount).getLast? = some (-200) := by
  have hs : createSubtotal [widget] = some 200 := by
    norm_num [createSubtotal, addLine, widget, JsNum.toNumber]
  have hr : createInvoiceData bigDiscountBody "INV-0001" =
      some { bigDiscountBody with
        invoiceNumber := some "INV-0001", subtotal := .num 200, taxAmount := .num 0,
        discountAmount := .num 400, total := .num (-200) } := by
    have hw : ¬ ("Widget" = "") := by decide
    simp only [createInvoiceData, bigDiscountBody, hs]
    norm_num [itemRejected, leZero, widget, orNum, JsNum.ofNumber, hw]
  refine ⟨_, hr, rfl, ?_⟩
  have h2 : (computeTotals { bigDiscountBody with
        invoiceNumber := some "INV-0001", subtotal := .num 200, taxAmount := .num 0,
        discountAmount := .num 400, total := .num (-200) }).total = -200 := by
    norm_num [computeTotals, bigDiscountBody, orNum]
  refine ⟨h2, ?_⟩
  rw [drawTotalsBox_shown, h2]
  split <;> simp

/-- C10 (counterexample): an invoice with subtotal 200 and the explicit total `-5` is printed
with the total `-5`, which is negative. -/
theorem C10_negative_total_shown :
    negativeTotal.total = .num (-5) ∧
    (computeTotals negativeTotal).total = -5 ∧
    ((_drawTotalsBox a4 negativeTotal 0).1.filterMap shownAmount).getLast? = some (-5) ∧
    ¬ (0 ≤ (computeTotals negativeTotal).total) := by
  have h1 : (computeTotals negativeTotal).total = -5 := by
    norm_num [computeTotals, negativeTotal, orNum]
  refine ⟨rfl, h1, ?_, ?_⟩
  · rw [drawTotalsBox_shown, h1]
    split <;> simp
  · rw [h1]
    norm_num

/-- C10 (amended): the total printed by the totals panel is negative exactly when the invoice
carries an explicit negative total; for an absent, `NaN`, zero or non-negative total it is
never negative. -/
theorem C10_total_negative_iff_explicit (page : Page) (invoice : Invoice) (startY : ℚ) :
    ((_drawTotalsBox page invoice startY).1.filterMap shownAmount).getLast? =
      some (computeTotals invoice).total ∧
    ((computeTotals invoice).total < 0 ↔ ∃ q, invoice.total = .num q ∧ q < 0) := by
  constructor
  · rw [drawTotalsBox_shown]
    split <;> simp
  · constructor
    · intro h
      cases ht : invoice.total with
      | undef =>
        simp only [computeTotals, ht, orNum] at h
        exact absurd h (not_lt.mpr (le_max_left _ _))
      | nan =>
        simp only [computeTotals, ht, orNum] at h
        exact absurd h (not_lt.mpr (le_max_left _ _))
      | num q =>
        by_cases hq : q = 0
        · simp only [computeTotals, ht, orNum, hq, if_true] at h
          exact absurd h (not_lt.mpr (le_max_left _ _))
        · simp only [computeTotals, ht, orNum, hq, if_false] at h
          exact ⟨q, rfl, h⟩
    · rintro ⟨q, hq, hneg⟩
      have hne : q ≠ 0 := ne_of_lt hneg
      simp only [computeTotals, hq, orNum, hne, if_false]
      exact hneg

/-! ## Claims on item cells and template dispatch -/

/-- C11 (counterexample): an item with quantity `-3` and price `-5` is drawn by
`_drawItemsTable` with the quantity text `-3` and the amount text `Rs.-5.00`. -/
theorem C11_negative_item_shown_negative :
    negativeItem.quantity = .num (-3) ∧ negativeItem.price = .num (-5) ∧
    (textsOf (drawRow 515 350 negativeItem 0)).map renderText =
      [some "Refund", some "-3", some "Rs.-5.00"] := by
  refine ⟨rfl, rfl, ?_⟩
  decide

/-- A negative number written with `toFixed(2)` starts with a minus sign. -/
theorem toFixed2_neg (q : ℚ) (h : q < 0) : ∃ rest, toFixed2 q = "-" ++ rest := by
  have hn : q.num < 0 := Rat.num_neg.mpr h
  refine ⟨toString ((2 * 100 * q.num.natAbs + q.den) / (2 * q.den) / 100) ++ "." ++
    digits2 ((2 * 100 * q.num.natAbs + q.den) / (2 * q.den) % 100), ?_⟩
  simp only [toFixed2, hn, if_true, String.append_assoc]

/-- C11 (amended): in the PDFKit table (template1), template3 and template4 the quantity cell is
`String(item.quantity || 0)` and the amount cell is `Rs.` with `Number(item.price || 0)` to
two decimals; template2 writes `item.quantity || 1` and the same amount. So an absent, `NaN`
or zero quantity is shown as `0` (as `1` in template2) and such a price as `Rs.0.00`,
while a negative quantity or price is shown as given, with its minus sign. The cell functions
are total: no error is raised for any item. -/
theorem C11_absent_zero_negative_kept (w y : ℚ) (idx : ℕ) (item : Item) :
    textsOf (drawRow w y item idx) =
      [[.str (orStr item.description "-")], [.num (orNum item.quantity 0)],
       [.str "Rs.", .fixed2 (orNum item.price 0)]] ∧
    textsOf (template3Row item) = textsOf (drawRow w y item idx) ∧
    textsOf (template4Row y item) = textsOf (drawRow w y item idx) ∧
    template2Row item =
      [[.str (orStr item.description "Item")], [.num (orNum item.quantity 1)],
       [.str "Rs.", .fixed2 (orNum item.price 0)]] ∧
    (item.quantity = .undef ∨ item.quantity = .nan ∨ item.quantity = .num 0 →
      orNum item.quantity 0 = 0 ∧ orNum item.quantity 1 = 1) ∧
    (item.price = .undef ∨ item.price = .nan ∨ item.price = .num 0 →
      orNum item.price 0 = 0) ∧
    renderText [.num 0] = some "0" ∧ renderText [.num 1] = some "1" ∧
    renderText [.str "Rs.", .fixed2 0] = some "Rs.0.00" ∧
    (∀ q, q < 0 → item.quantity = .num q →
      orNum item.quantity 0 = q ∧ orNum item.quantity 1 = q) ∧
    (∀ q, q < 0 → item.price = .num q →
      orNum item.price 0 = q ∧ ∃ rest, toFixed2 (orNum item.price 0) = "-" ++ rest) := by
  have hrow : textsOf (drawRow w y item idx) =
      [[.str (orStr item.description "-")], [.num (orNum item.quantity 0)],
       [.str "Rs.", .fixed2 (orNum item.price 0)]] := by
    by_cases hi : idx % 2 = 0 <;> simp [drawRow, textsOf, opText, hi]
  refine ⟨hrow, ?_, ?_, rfl, ?_, ?_, by decide, by decide, by decide, ?_, ?_⟩
  · rw [hrow]; rfl
  · rw [hrow]; rfl
  · rintro (h | h | h) <;> simp [h, orNum]
  · rintro (h | h | h) <;> simp [h, orNum]
  · intro q hq h
    have hne : q ≠ 0 := ne_of_lt hq
    simp [h, orNum, hne]
  · intro q hq h
    have hne : q ≠ 0 := ne_of_lt hq
    have hv : orNum item.price 0 = q := by simp [h, orNum, hne]
    exact ⟨hv, by rw [hv]; exact toFixed2_neg q hq⟩

/-- C12 (evaluation at the failing input): for the names `constructor`, `toString` and
`__proto__` the lookup in the `templates` object finds an inherited property, so template1 is
not selected and `generatePDF` throws although every template would yield a valid document;
the name `nope` does fall back to template1. -/
theorem C12_inherited_names_raise :
    selectTemplate "constructor" = .inheritedFunction "constructor" ∧
    Pdf.generatePDF (fun _ => .ok goodPdf) "constructor" =
      .error "Template returned null or undefined" ∧
    Pdf.generatePDF (fun _ => .ok goodPdf) "toString" =
      .error "Template returned null or undefined" ∧
    Pdf.generatePDF (fun _ => .ok goodPdf) "__proto__" =
      .error "Template __proto__ has no valid generate method" ∧
    selectTemplate "nope" = .registered .template1 ∧
    Pdf.generatePDF (fun _ => .ok goodPdf) "nope" = .ok [37, 80, 68, 70, 45] := by
  refine ⟨by decide, rfl, rfl, rfl, by decide, rfl⟩

/-- A name that is neither registered nor inherited is served by template1. -/
theorem unknown_name_uses_template1 (run : TemplateKey → Except String Yielded)
    (templateName : String) (h : lookupTemplate templateName = .missing) :
    selectTemplate templateName = .registered .template1 ∧
    Pdf.generatePDF run templateName = Pdf.generatePDF run "template1" := by
  have h1 : selectTemplate templateName = .registered .template1 := by
    simp [selectTemplate, h]
  have h2 : selectTemplate "template1" = .registered .template1 := by decide
  exact ⟨h1, by simp only [Pdf.generatePDF, h1, h2]⟩

/-- What `checkResult` lets through is a non-empty buffer that starts with `%PDF`. -/
theorem checkResult_ok (result : Yielded) (bytes : List ℕ) (h : checkResult result = .ok bytes) :
    result = .buffer bytes ∧ bytes ≠ [] ∧ bytes.take 4 = pdfMagic := by
  cases result with
  | nullish => simp [checkResult] at h
  | notBuffer => simp [checkResult] at h
  | buffer b =>
    simp only [checkResult] at h
    split at h
    · simp at h
    · split at h
      · simp at h
      · rename_i h0 h4
        have hb : b = bytes := by
          injection h
        subst hb
        refine ⟨rfl, ?_, ?_⟩
        · intro hnil
          exact h0 (by simp [hnil])
        · exact not_not.mp h4

/-- C13: `generatePDF` of the dispatcher either returns a non-empty buffer whose first four
bytes are `%PDF`, which is then exactly the buffer the selected template yielded, or it
throws; when the selected template yields `null`/`undefined`, a non-buffer, an empty buffer or
a buffer with another header, it throws, and a valid buffer is returned as it is. -/
theorem C13_valid_pdf_or_error (run : TemplateKey → Except String Yielded)
    (templateName : String) :
    ((∃ bytes, Pdf.generatePDF run templateName = .ok bytes ∧ bytes ≠ [] ∧
        bytes.take 4 = pdfMagic ∧
        ∃ key, selectTemplate templateName = .registered key ∧ run key = .ok (.buffer bytes)) ∨
      (∃ e, Pdf.generatePDF run templateName = .error e)) ∧
    (∀ key result, selectTemplate templateName = .registered key → run key = .ok result →
      (result = .nullish ∨ result = .notBuffer ∨ result = .buffer [] ∨
        (∃ bytes, result = .buffer bytes ∧ bytes.take 4 ≠ pdfMagic)) →
      ∃ e, Pdf.generatePDF run templateName = .error e) ∧
    (∀ key bytes, selectTemplate templateName = .registered key →
      run key = .ok (.buffer bytes) → bytes ≠ [] → bytes.take 4 = pdfMagic →
      Pdf.generatePDF run templateName = .ok bytes) := by
  refine ⟨?_, ?_, ?_⟩
  · cases hs : selectTemplate templateName with
    | registered key =>
      cases hr : run key with
      | error e => exact Or.inr ⟨e, by simp only [Pdf.generatePDF, hs, hr]⟩
      | ok result =>
        cases hc : checkResult result with
        | error e => exact Or.inr ⟨e, by simp only [Pdf.generatePDF, hs, hr, hc]⟩
        | ok bytes =>
          have h := checkResult_ok result bytes hc
          refine Or.inl ⟨bytes, by simp only [Pdf.generatePDF, hs, hr, hc], h.2.1, h.2.2,
            key, rfl, ?_⟩
          rw [hr, h.1]
    | inheritedFunction name =>
      by_cases hn : name ∈ ["constructor", "toString", "isPrototypeOf"]
      · right
        simp only [Pdf.generatePDF, hs, hn, if_true, checkResult]
        exact ⟨_, rfl⟩
      · right
        simp only [Pdf.generatePDF, hs, hn, if_false]
        exact ⟨_, rfl⟩
    | objectPrototype =>
      right
      simp only [Pdf.generatePDF, hs]
      exact ⟨_, rfl⟩
    | missing =>
      right
      simp only [Pdf.generatePDF, hs]
      exact ⟨_, rfl⟩
  · intro key result hs hr hbad
    rcases hbad with h | h | h | ⟨bytes, h, hm⟩
    · simp only [Pdf.generatePDF, hs, hr, h, checkResult]
      exact ⟨_, rfl⟩
    · simp only [Pdf.generatePDF, hs, hr, h, checkResult]
      exact ⟨_, rfl⟩
    · simp only [Pdf.generatePDF, hs, hr, h, checkResult, List.length_nil, if_true]
      exact ⟨_, rfl⟩
    · by_cases h0 : bytes.length = 0
      · simp only [Pdf.generatePDF, hs, hr, h, checkResult, h0, if_true]
        exact ⟨_, rfl⟩
      · simp only [Pdf.generatePDF, hs, hr, h, checkResult, h0, hm, if_false, ne_eq,
          not_false_eq_true, if_true]
        exact ⟨_, rfl⟩
  · intro key bytes hs hr hne hm
    have h0 : ¬ bytes.length = 0 := by
      intro h
      exact hne (List.length_eq_zero.mp h)
    simp [Pdf.generatePDF, hs, hr, checkResult, h0, hm]

/-! ## Claims on the glyph -/

/-- The operations of `_drawFooter` written out for the three cases of the glyph buffer; the
strip is at `footerTop + 98` in each. -/
theorem drawFooter_cases (page : Page) (invoice : Invoice) (pageWidth lastY : ℚ) :
    _drawFooter page invoice pageWidth lastY none =
      [_drawLine page (footerTop page lastY),
       Op.text [.str "Payment Details:"] 40 (footerTop page lastY + 12) none .left,
       Op.text [.str "Account: ", .str (orStr (invoice.sender.bind (·.email)) "-"),
         .str " | Bank: ", .str (orStr (invoice.sender.bind (·.name)) "-")] 40
         (footerTop page lastY + 32) (some (pageWidth - 320)) .left,
       Op.rect 40 (footerTop page lastY + 98) (pageWidth - 80) 4,
       Op.text [.str "Thank you for your business!"] 40 (footerTop page lastY + 98 + 14)
         (some (pageWidth - 80)) .center] ∧
    _drawFooter page invoice pageWidth lastY (some .corrupt) =
      _drawFooter page invoice pageWidth lastY none ∧
    _drawFooter page invoice pageWidth lastY (some .valid) =
      [_drawLine page (footerTop page lastY),
       Op.text [.str "Payment Details:"] 40 (footerTop page lastY + 12) none .left,
       Op.text [.str "Account: ", .str (orStr (invoice.sender.bind (·.email)) "-"),
         .str " | Bank: ", .str (orStr (invoice.sender.bind (·.name)) "-")] 40
         (footerTop page lastY + 32) (some (pageWidth - 320)) .left,
       Op.image (pageWidth - 40 - 70) (footerTop page lastY + 8) 70 70,
       Op.text [.str "Scan to pay"] (pageWidth - 40 - 70) (footerTop page lastY + 8 + 70 + 6)
         (some 70) .center,
       Op.rect 40 (footerTop page lastY + 98) (pageWidth - 80) 4,
       Op.text [.str "Thank you for your business!"] 40 (footerTop page lastY + 98 + 14)
         (some (pageWidth - 80)) .center] := by
  have hmax : max (footerTop page lastY + 75) (footerTop page lastY + 8 + 70 + 20) =
      footerTop page lastY + 98 := by
    rw [max_eq_right (by linarith)]
    ring
  refine ⟨?_, rfl, ?_⟩ <;> simp [_drawFooter, hmax]

/-- Rows of the items table place no bitmap. -/
theorem drawRows_noImage (w : ℚ) (items : List Item) (idx : ℕ) (y : ℚ) :
    (drawRows w items idx y).1.any isImage = false := by
  induction items generalizing idx y with
  | nil => simp [drawRows]
  | cons item rest ih =>
    have hrow : (drawRow w y item idx).any isImage = false := by
      by_cases hi : idx % 2 = 0 <;> simp [drawRow, isImage, hi]
    simp only [drawRows, List.any_append, hrow, ih, Bool.or_self]

/-- With `qrBuffer = null` no operation of a completed `_build` places a bitmap. -/
theorem buildDocument_noImage (page : Page) (invoice : Invoice) (cursorAfter : String → ℚ)
    (r : List Op × Invoice) (h : buildDocument page invoice cursorAfter none = .ok r) :
    r.1.any isImage = false := by
  unfold buildDocument at h
  cases hs : invoice.sender with
  | none => simp [_drawHeader, hs] at h
  | some sender =>
    simp only [_drawHeader, hs] at h
    injection h with h
    subst h
    have htab : (_build page invoice none).tableOps.any isImage = false := by
      simp [_build, _drawItemsTable, List.any_append, drawRows_noImage, isImage]
    have htot : (_build page invoice none).totalsOps.any isImage = false := by
      have : (_build page invoice none).totalsOps =
          (_drawTotalsBox page (_drawItemsTable page invoice).invoice
            (_drawItemsTable page invoice).ret).1 := rfl
      rw [this, drawTotalsBox_ops]
      split <;> simp [printLine, isImage]
    have hfoot : (_build page invoice none).footerOps.any isImage = false := by
      have : (_build page invoice none).footerOps =
          _drawFooter page (_drawItemsTable page invoice).invoice page.width
            (_build page invoice none).totalsBottomY none := rfl
      rw [this, (drawFooter_cases _ _ _ _).1]
      simp [isImage, _drawLine]
    simp only [List.any_append, htab, htot, hfoot]
    simp [_drawWaves, _drawBillTo, _drawLine, isImage]

/-- The outcome of `generatePDF` when `_build` completes. -/
theorem generatePDF_ok (provider : String → Except String DataUrl) (now : ℕ)
    (cursorAfter : String → ℚ) (invoice : Invoice) (b : List Op × Invoice)
    (h : buildDocument a4 invoice cursorAfter (makeQrBuffer provider (qrText invoice now)) =
      .ok b) :
    PDFGenerator.generatePDF provider now cursorAfter invoice =
      .ok { title := "Invoice " ++ orStr invoice.invoiceNumber ""
            author := orStr (invoice.sender.bind (·.name)) "Invoice Generator"
            glyphText := qrText invoice now
            ops := b.1
            invoice := b.2 } := by
  simp only [PDFGenerator.generatePDF, h]

/-- C14: when the glyph provider rejects, or decoding its data URL throws, `generatePDF`
goes on with `qrBuffer = null`: its outcome is that of `_build` with no glyph, so a pass that
completes with some provider completes with the failing one too; for an invoice with a
sender it resolves with a document that has no bitmap and ends with the whole footer. An
error while placing the bitmap leaves the footer as it is without a glyph block. -/
theorem C14_glyph_failure_renders_without_glyph (provider : String → Except String DataUrl)
    (now : ℕ) (cursorAfter : String → ℚ) (invoice : Invoice)
    (h : (∃ e, provider (qrText invoice now) = .error e) ∨
      provider (qrText invoice now) = .ok .noPayload) :
    makeQrBuffer provider (qrText invoice now) = none ∧
    (∀ other r, PDFGenerator.generatePDF other now cursorAfter invoice = .ok r →
      ∃ r0, PDFGenerator.generatePDF provider now cursorAfter invoice = .ok r0) ∧
    (∀ sender, invoice.sender = some sender →
      ∃ r, PDFGenerator.generatePDF provider now cursorAfter invoice = .ok r ∧
        r.ops.any isImage = false ∧
        ∃ before, r.ops = before ++ (_build a4 invoice none).footerOps) ∧
    (∀ page inv pageWidth lastY,
      _drawFooter page inv pageWidth lastY (some .corrupt) =
        _drawFooter page inv pageWidth lastY none ∧
      (_drawFooter page inv pageWidth lastY none).drop 3 =
        [Op.rect 40 (footerTop page lastY + 98) (pageWidth - 80) 4,
         Op.text [.str "Thank you for your business!"] 40 (footerTop page lastY + 98 + 14)
           (some (pageWidth - 80)) .center]) := by
  have hq : makeQrBuffer provider (qrText invoice now) = none := by
    rcases h with ⟨e, h⟩ | h <;> simp [makeQrBuffer, h]
  have hsender : ∀ sender, invoice.sender = some sender →
      ∃ r, PDFGenerator.generatePDF provider now cursorAfter invoice = .ok r ∧
        r.ops.any isImage = false ∧
        ∃ before, r.ops = before ++ (_build a4 invoice none).footerOps := by
    intro sender hs
    obtain ⟨b, hb, -, before, hbefore⟩ :=
      buildDocument_ok_of_sender a4 invoice cursorAfter none sender hs
    have hgen : PDFGenerator.generatePDF provider now cursorAfter invoice =
        .ok { title := "Invoice " ++ orStr invoice.invoiceNumber ""
              author := orStr (invoice.sender.bind (·.name)) "Invoice Generator"
              glyphText := qrText invoice now
              ops := b.1
              invoice := b.2 } := by
      simp only [PDFGenerator.generatePDF, hq, hb]
    exact ⟨_, hgen, buildDocument_noImage a4 invoice cursorAfter b hb, before, hbefore⟩
  refine ⟨hq, ?_, hsender, ?_⟩
  · intro other r hr
    cases hs : invoice.sender with
    | none =>
      simp [PDFGenerator.generatePDF, buildDocument, _drawHeader, hs] at hr
    | some sender =>
      obtain ⟨r0, h0, -⟩ := hsender sender hs
      exact ⟨r0, h0⟩
  · intro page inv pageWidth lastY
    refine ⟨(drawFooter_cases page inv pageWidth lastY).2.1, ?_⟩
    rw [(drawFooter_cases page inv pageWidth lastY).1]
    rfl

/-- C14 (witness): the rejecting provider on an invoice with a sender and one item. -/
theorem C14_glyph_failure_witness :
    ((∃ e, failingProvider (qrText noMoney 0) = .error e) ∨
      failingProvider (qrText noMoney 0) = .ok .noPayload) ∧
    makeQrBuffer failingProvider (qrText noMoney 0) = none ∧
    ∃ r, PDFGenerator.generatePDF failingProvider 0 oneLine noMoney = .ok r ∧
      r.ops.any isImage = false ∧
      ∃ before, r.ops = before ++ (_build a4 noMoney none).footerOps :=
  ⟨Or.inl ⟨_, rfl⟩,
    (C14_glyph_failure_renders_without_glyph failingProvider 0 oneLine noMoney
      (Or.inl ⟨_, rfl⟩)).1,
    (C14_glyph_failure_renders_without_glyph failingProvider 0 oneLine noMoney
      (Or.inl ⟨_, rfl⟩)).2.2.1 _ rfl⟩

/-- C15: for every footer top the strip and the thank-you text are at the same positions with
and without a glyph bitmap: the footer with a glyph is the footer without one with the image
and its label inserted before the strip. -/
theorem C15_strip_position_glyph_independent (page : Page) (invoice : Invoice)
    (pageWidth lastY : ℚ) :
    _drawFooter page invoice pageWidth lastY (some .valid) =
      (_drawFooter page invoice pageWidth lastY none).take 3 ++
        [Op.image (pageWidth - 40 - 70) (footerTop page lastY + 8) 70 70,
         Op.text [.str "Scan to pay"] (pageWidth - 40 - 70) (footerTop page lastY + 8 + 70 + 6)
           (some 70) .center] ++
        (_drawFooter page invoice pageWidth lastY none).drop 3 ∧
    (_drawFooter page invoice pageWidth lastY (some .valid)).drop 5 =
      (_drawFooter page invoice pageWidth lastY none).drop 3 ∧
    (_drawFooter page invoice pageWidth lastY none).drop 3 =
      [Op.rect 40 (footerTop page lastY + 98) (pageWidth - 80) 4,
       Op.text [.str "Thank you for your business!"] 40 (footerTop page lastY + 98 + 14)
         (some (pageWidth - 80)) .center] ∧
    (_drawFooter page invoice pageWidth lastY (some .valid)).filter (fun op => !isImage op
        && decide (opText op ≠ some [.str "Scan to pay"])) =
      _drawFooter page invoice pageWidth lastY none := by
  obtain ⟨h1, -, h3⟩ := drawFooter_cases page invoice pageWidth lastY
  rw [h1, h3]
  refine ⟨rfl, rfl, rfl, ?_⟩
  simp [isImage, opText, _drawLine]

/-- C16: with a glyph bitmap the strip is drawn at
`max(footerTop + 75, footerTop + 8 + 70 + 20) = footerTop + 98` and the thank-you text 14
below it, after the image at `footerTop + 8` of height 70 and its label at `footerTop + 84`;
so both lie at or below the bottom edge of the image and below the top of the label. -/
theorem C16_strip_below_glyph (page : Page) (invoice : Invoice) (pageWidth lastY : ℚ) :
    (_drawFooter page invoice pageWidth lastY (some .valid)).drop 3 =
      [Op.image (pageWidth - 40 - 70) (footerTop page lastY + 8) 70 70,
       Op.text [.str "Scan to pay"] (pageWidth - 40 - 70) (footerTop page lastY + 84)
         (some 70) .center,
       Op.rect 40 (max (footerTop page lastY + 75) (footerTop page lastY + 8 + 70 + 20))
         (pageWidth - 80) 4,
       Op.text [.str "Thank you for your business!"] 40
         (max (footerTop page lastY + 75) (footerTop page lastY + 8 + 70 + 20) + 14)
         (some (pageWidth - 80)) .center] ∧
    max (footerTop page lastY + 75) (footerTop page lastY + 8 + 70 + 20) =
      footerTop page lastY + 98 ∧
    (footerTop page lastY + 8) + 70 = footerTop page lastY + 78 ∧
    footerTop page lastY + 78 ≤
      max (footerTop page lastY + 75) (footerTop page lastY + 8 + 70 + 20) ∧
    footerTop page lastY + 84 <
      max (footerTop page lastY + 75) (footerTop page lastY + 8 + 70 + 20) ∧
    footerTop page lastY + 84 <
      max (footerTop page lastY + 75) (footerTop page lastY + 8 + 70 + 20) + 14 := by
  have hmax : max (footerTop page lastY + 75) (footerTop page lastY + 8 + 70 + 20) =
      footerTop page lastY + 98 := by
    rw [max_eq_right (by linarith)]
    ring
  refine ⟨?_, hmax, by ring, ?_, ?_, ?_⟩
  · rw [(drawFooter_cases page invoice pageWidth lastY).2.2, hmax]
    simp only [List.drop_succ_cons, List.drop_zero]
    congr 3
    ring
  · rw [hmax]; linarith
  · rw [hmax]; linarith
  · rw [hmax]; linarith

/-! ## Claims on missing fields, the invoice object and repeated calls -/

/-- With a sender that has no field set and no recipient, the header and the bill-to block draw
the placeholders `SG`, `Company Name`, the empty string and `-`. -/
theorem placeholders_drawn :
    (_drawHeader { sender := some {} } a4.width).map textsOf =
      .ok [[.str "SG"], [.str "Company Name"], [.str ""], [.str ""],
        [.str "", .str ", ", .str "", .str " ", .str ""], [.str "INVOICE #"], [.str "-"],
        [.str "Date"], [.str "-"]] ∧
    textsOf (_drawBillTo a4 { sender := some {} } oneLine) =
      [[.str "Bill To:"], [.str "-"], [.str "-"],
        [.str "", .str "", .str "", .str " ", .str ""], [.str ""]] := by
  constructor <;> rfl

/-- C17 (evaluation at the failing input): for an invoice without `from` (recipient, item and
amounts present) `_drawHeader` throws on reading `invoice.from.name`, so `_build` does not
complete and `generatePDF` rejects, whatever the glyph provider does. -/
theorem C17_missing_sender_raises :
    noSender.sender = none ∧
    _drawHeader noSender a4.width = .error (typeErrorReading "name") ∧
    buildDocument a4 noSender oneLine none = .error (typeErrorReading "name") ∧
    PDFGenerator.generatePDF workingProvider 0 oneLine noSender =
      .error (typeErrorReading "name") := by
  refine ⟨rfl, rfl, rfl, rfl⟩

/-- The totals panel of the PDFKit generator shows zero for absent amounts. -/
theorem computeTotals_noMoney :
    (computeTotals noMoney).subtotal = 0 ∧ (computeTotals noMoney).taxAmount = 0 ∧
    (computeTotals noMoney).total = 0 := by
  refine ⟨?_, ?_, ?_⟩ <;> norm_num [computeTotals, noMoney, orNum]

/-- C18 (evaluation at the failing input): for an invoice with both parties and one item but
without `subtotal`, `taxAmount` and `total`, template3 and template4 reject, because
`invoice.subtotal.toFixed(2)` throws; the same happens when only `subtotal` is absent. The
PDFKit generator behind template1 resolves for this invoice. -/
theorem C18_plain_templates_reject :
    noMoney.subtotal = .undef ∧ noMoney.taxAmount = .undef ∧ noMoney.total = .undef ∧
    template3Generate a4 noMoney = .error (typeErrorReading "toFixed") ∧
    template4Generate a4 noMoney = .error (typeErrorReading "toFixed") ∧
    template3Generate a4 { noSender with subtotal := .undef } =
      .error (typeErrorReading "toFixed") ∧
    (∃ r, PDFGenerator.generatePDF workingProvider 0 oneLine noMoney = .ok r) := by
  refine ⟨rfl, rfl, rfl, rfl, rfl, rfl, ?_⟩
  obtain ⟨r, hr, -⟩ := buildDocument_ok_of_sender a4 noMoney oneLine
    (makeQrBuffer workingProvider (qrText noMoney 0)) _ rfl
  exact ⟨_, generatePDF_ok workingProvider 0 oneLine noMoney r hr⟩

/-- The invoice after `_drawItemsTable`: `items` is set to the list that was there, or to the
empty list when it was absent; nothing else changes. -/
theorem build_invoice (page : Page) (invoice : Invoice) (qr : Option QrBuffer) :
    (_build page invoice qr).invoice = { invoice with items := some (invoice.items.getD []) } :=
  rfl

/-- The invoice after a completed `_build`. -/
theorem buildDocument_invoice (page : Page) (invoice : Invoice) (cursorAfter : String → ℚ)
    (qr : Option QrBuffer) (r : List Op × Invoice)
    (h : buildDocument page invoice cursorAfter qr = .ok r) :
    r.2 = { invoice with items := some (invoice.items.getD []) } := by
  unfold buildDocument at h
  cases hd : _drawHeader invoice page.width with
  | error e => simp [hd] at h
  | ok header =>
    simp only [hd] at h
    injection h with h
    rw [← h]
    rfl

/-- A second pass over the invoice left by a first pass draws what the first pass drew. -/
theorem buildDocument_again (page : Page) (invoice : Invoice) (cursorAfter : String → ℚ)
    (qr : Option QrBuffer) :
    buildDocument page { invoice with items := some (invoice.items.getD []) } cursorAfter qr =
      buildDocument page invoice cursorAfter qr := by
  obtain ⟨number, date, sender, recipient, items, sub, rate, tax, drate, disc, total⟩ := invoice
  cases items <;> rfl

/-- C19 (counterexample): an invoice with a sender and no `items` field has, after `_build`,
the field `items` with the empty list as value. -/
theorem C19_items_field_added :
    senderOnly.items = none ∧
    ∃ r, buildDocument a4 senderOnly oneLine none = .ok r ∧ r.2.items = some [] ∧
      r.2 ≠ senderOnly := by
  obtain ⟨r, hr, hinv, -⟩ := buildDocument_ok_of_sender a4 senderOnly oneLine none _ rfl
  refine ⟨rfl, r, hr, ?_, ?_⟩
  · rw [hinv]; rfl
  · rw [hinv, build_invoice]
    intro h
    have := congrArg Invoice.items h
    simp [senderOnly] at this

/-- C19 (amended): when `_build` completes, every field of the invoice other than `items` has
the value it had before; `items` is unchanged when it was present, and has become the empty
list when it was absent. -/
theorem C19_only_items_defaulted (page : Page) (invoice : Invoice) (cursorAfter : String → ℚ)
    (qr : Option QrBuffer) (r : List Op × Invoice)
    (h : buildDocument page invoice cursorAfter qr = .ok r) :
    r.2 = { invoice with items := some (invoice.items.getD []) } ∧
    r.2.invoiceNumber = invoice.invoiceNumber ∧ r.2.issueDate = invoice.issueDate ∧
    r.2.sender = invoice.sender ∧ r.2.recipient = invoice.recipient ∧
    r.2.subtotal = invoice.subtotal ∧ r.2.taxRate = invoice.taxRate ∧
    r.2.taxAmount = invoice.taxAmount ∧ r.2.discountRate = invoice.discountRate ∧
    r.2.discountAmount = invoice.discountAmount ∧ r.2.total = invoice.total ∧
    (∀ items, invoice.items = some items → r.2 = invoice) ∧
    (invoice.items = none → r.2.items = some []) := by
  have hinv := buildDocument_invoice page invoice cursorAfter qr r h
  refine ⟨hinv, ?_, ?_, ?_, ?_, ?_, ?_, ?_, ?_, ?_, ?_, ?_, ?_⟩
  all_goals first
    | (rw [hinv]; done)
    | (intro items hi; rw [hinv, hi]; cases invoice; simp_all)
    | (intro hi; rw [hinv, hi]; rfl)

/-- C19 (witness): the amended statement at an invoice with a sender and one item. -/
theorem C19_only_items_defaulted_witness :
    ∃ r, buildDocument a4 noMoney oneLine none = .ok r ∧ r.2 = noMoney := by
  obtain ⟨r, hr, -⟩ := buildDocument_ok_of_sender a4 noMoney oneLine none _ rfl
  exact ⟨r, hr, (C19_only_items_defaulted a4 noMoney oneLine none r hr).2.2.2.2.2.2.2.2.2.2.2.1
    [widget] rfl⟩

/-- C20 (counterexample): for an invoice without `invoiceNumber` the text encoded in the glyph
is `INV-` followed by the clock reading, so two calls at the readings 1000 and 2000 encode
`INV-1000` and `INV-2000`. -/
theorem C20_glyph_text_follows_clock :
    senderOnly.invoiceNumber = none ∧
    ∃ r1 r2, PDFGenerator.generatePDF workingProvider 1000 oneLine senderOnly = .ok r1 ∧
      PDFGenerator.generatePDF workingProvider 2000 oneLine senderOnly = .ok r2 ∧
      r1.glyphText = "INV-1000" ∧ r2.glyphText = "INV-2000" ∧ r1.glyphText ≠ r2.glyphText := by
  obtain ⟨b1, h1, -⟩ := buildDocument_ok_of_sender a4 senderOnly oneLine
    (makeQrBuffer workingProvider (qrText senderOnly 1000)) _ rfl
  obtain ⟨b2, h2, -⟩ := buildDocument_ok_of_sender a4 senderOnly oneLine
    (makeQrBuffer workingProvider (qrText senderOnly 2000)) _ rfl
  refine ⟨rfl, _, _, generatePDF_ok workingProvider 1000 oneLine senderOnly b1 h1,
    generatePDF_ok workingProvider 2000 oneLine senderOnly b2 h2, ?_, ?_, ?_⟩
  · show qrText senderOnly 1000 = "INV-1000"
    decide
  · show qrText senderOnly 2000 = "INV-2000"
    decide
  · show qrText senderOnly 1000 ≠ qrText senderOnly 2000
    decide

/-- C20 (amended): for an invoice with a non-empty `invoiceNumber` the glyph encodes that
number, and two calls with the same glyph provider and PDF library give the same outcome
(document information, glyph text, drawing operations with coordinates and strings) whatever
the clock readings; this also holds when the second call gets the invoice object as the first
call left it. -/
theorem C20_same_output_with_number (provider : String → Except String DataUrl)
    (cursorAfter : String → ℚ) (invoice : Invoice) (number : String) (now1 now2 : ℕ)
    (h : invoice.invoiceNumber = some number) (hne : number ≠ "") :
    qrText invoice now1 = number ∧
    PDFGenerator.generatePDF provider now1 cursorAfter invoice =
      PDFGenerator.generatePDF provider now2 cursorAfter invoice ∧
    (∀ r, PDFGenerator.generatePDF provider now1 cursorAfter invoice = .ok r →
      PDFGenerator.generatePDF provider now2 cursorAfter r.invoice = .ok r) := by
  have hq : ∀ now, qrText invoice now = number := by
    intro now
    simp [qrText, h, orStr, hne]
  have hsame : PDFGenerator.generatePDF provider now1 cursorAfter invoice =
      PDFGenerator.generatePDF provider now2 cursorAfter invoice := by
    simp only [PDFGenerator.generatePDF, hq]
  refine ⟨hq now1, hsame, ?_⟩
  intro r hr
  have hinv : r.invoice = { invoice with items := some (invoice.items.getD []) } := by
    cases hb : buildDocument a4 invoice cursorAfter
        (makeQrBuffer provider (qrText invoice now1)) with
    | error e => simp [PDFGenerator.generatePDF, hb] at hr
    | ok b =>
      rw [generatePDF_ok provider now1 cursorAfter invoice b hb] at hr
      injection hr with hr
      rw [← hr]
      exact buildDocument_invoice a4 invoice cursorAfter _ b hb
  have hagain : PDFGenerator.generatePDF provider now2 cursorAfter
      { invoice with items := some (invoice.items.getD []) } =
      PDFGenerator.generatePDF provider now2 cursorAfter invoice := by
    have hq2 : ∀ now, qrText { invoice with items := some (invoice.items.getD []) } now =
        qrText invoice now := fun _ => rfl
    simp only [PDFGenerator.generatePDF, hq2, buildDocument_again]
  rw [hinv, hagain, ← hsame, hr]

/-- C20 (witness): two calls at the clock readings 1000 and 2000 for an invoice numbered
`INV-0001`. -/
theorem C20_same_output_witness :
    noMoney.invoiceNumber = some "INV-0001" ∧ "INV-0001" ≠ "" ∧
    qrText noMoney 1000 = "INV-0001" ∧
    PDFGenerator.generatePDF workingProvider 1000 oneLine noMoney =
      PDFGenerator.generatePDF workingProvider 2000 oneLine noMoney :=
  ⟨rfl, by decide,
    (C20_same_output_with_number workingProvider oneLine noMoney "INV-0001" 1000 2000 rfl
      (by decide)).1,
    (C20_same_output_with_number workingProvider oneLine noMoney "INV-0001" 1000 2000 rfl
      (by decide)).2.1⟩

/-! ## The create route and the scenarios -/

/-- The invoice number after `INV-0007` is `INV-0008`; the first one is `INV-0001`. -/
theorem nextInvoiceNumber_samples :
    nextInvoiceNumber none = "INV-0001" ∧ nextInvoiceNumber (some storedSeven) = "INV-0008" ∧
    nextInvoiceNumber (some {}) = "INV-0001" ∧
    nextInvoiceNumber (some { invoiceNumber := some "draft" }) = "INV-0001" := by
  refine ⟨by decide, by decide, by decide, by decide⟩

/-- The record the create route builds for `widgetBody` when no invoice is stored yet. -/
theorem createInvoice_widgetBody :
    createInvoice none widgetBody =
      some { widgetBody with
        invoiceNumber := some "INV-0001", subtotal := .num 200, taxAmount := .num 36,
        discountAmount := .num 0, total := .num 236 } := by
  have hs : createSubtotal [widget] = some 200 := by
    norm_num [createSubtotal, addLine, widget, JsNum.toNumber]
  have hn : nextInvoiceNumber none = "INV-0001" := by decide
  have hw : ¬ ("Widget" = "") := by decide
  simp only [createInvoice, createInvoiceData, widgetBody, hs, hn]
  norm_num [itemRejected, leZero, widget, orNum, JsNum.ofNumber, hw]

/-- C21: for the request with tax rate 18, discount rate 0 and the single item
`{description: "Widget", quantity: 2, price: 100}` the create route builds a record with
subtotal 200, tax amount 36, discount amount 0 and total 236, and the totals panel drawn for
that record prints `Subtotal Rs.200.00`, `Tax (18%) Rs.36.00` and `Total Rs.236.00`, with no
Discount line. -/
theorem C21_widget_scenario :
    ∃ r, createInvoice none widgetBody = some r ∧
      r.subtotal = .num 200 ∧ r.taxAmount = .num 36 ∧ r.discountAmount = .num 0 ∧
      r.total = .num 236 ∧ r.taxRate = .num 18 ∧ r.discountRate = .num 0 ∧
      computeTotals r =
        { subtotal := 200, taxRate := 18, taxAmount := 36, discountRate := 0,
          discountAmount := 0, total := 236 } ∧
      toFixed2 200 = "200.00" ∧ toFixed2 36 = "36.00" ∧ toFixed2 0 = "0.00" ∧
      toFixed2 236 = "236.00" ∧
      (textsOf (_drawTotalsBox a4 r 362).1).map renderText =
        [some "Subtotal", some "Rs.200.00", some "Tax (18%)", some "Rs.36.00",
         some "Total", some "Rs.236.00"] := by
  have hct : computeTotals { widgetBody with
        invoiceNumber := some "INV-0001", subtotal := .num 200, taxAmount := .num 36,
        discountAmount := .num 0, total := .num 236 } =
      { subtotal := 200, taxRate := 18, taxAmount := 36, discountRate := 0,
        discountAmount := 0, total := 236 } := by
    norm_num [computeTotals, widgetBody, orNum]
  refine ⟨_, createInvoice_widgetBody, rfl, rfl, rfl, rfl, rfl, rfl, hct,
    by decide, by decide, by decide, by decide, ?_⟩
  rw [drawTotalsBox_ops, hct]
  simp only [lt_self_iff_false, if_false, List.append_nil, printLine, textsOf,
    List.cons_append, List.nil_append, List.filterMap_cons, opText, List.filterMap_nil]
  decide

/-- C22: for an invoice with a sender, no items (the field absent or the list empty) and no
monetary field, the table height is the header height 30 and `_drawItemsTable` draws the
border, the header band and the three header texts only and returns `320 + 30 + 12`; the whole
`_build` completes and draws waves, header, bill-to, that table, the totals panel, which
prints the amounts 0, 0 and 0, written `Rs.0.00`, for subtotal, tax and total, and the
footer, from its rule at the footer top to the thank-you text, which is the last operation
of the pass. -/
theorem C22_zero_items (page : Page) (invoice : Invoice) (cursorAfter : String → ℚ)
    (qr : Option QrBuffer) (sender : Party) (hsender : invoice.sender = some sender)
    (hitems : invoice.items = none ∨ invoice.items = some [])
    (hsub : invoice.subtotal = .undef) (hrate : invoice.taxRate = .undef)
    (htax : invoice.taxAmount = .undef) (hdrate : invoice.discountRate = .undef)
    (hdisc : invoice.discountAmount = .undef) (htotal : invoice.total = .undef) :
    tableHeight invoice = headerHeight ∧ tableHeight invoice = 30 ∧
    (_drawItemsTable page invoice).ops =
      [Op.rect 40 320 (page.width - 80) 30, Op.rect 40 320 (page.width - 80) 30,
       Op.text [.str "Description"] 40 (661 / 2) (some (descW (page.width - 80))) .center,
       Op.text [.str "Quantity"] (40 + descW (page.width - 80)) (661 / 2)
         (some (qtyW (page.width - 80))) .center,
       Op.text [.str "Amount"] (40 + descW (page.width - 80) + qtyW (page.width - 80))
         (661 / 2) (some (amtW (page.width - 80))) .center] ∧
    (_drawItemsTable page invoice).ret = 320 + 30 + 12 ∧
    renderText [.str "Rs.", .fixed2 0] = some "Rs.0.00" ∧
    ∃ r header, buildDocument page invoice cursorAfter qr = .ok r ∧
      _drawHeader invoice page.width = .ok header ∧
      r.1 = _drawWaves page page.width ++ header ++ _drawBillTo page invoice cursorAfter
        ++ (_drawItemsTable page invoice).ops ++ (_drawTotalsBox page r.2 362).1
        ++ _drawFooter page r.2 page.width 500 qr ∧
      (_drawTotalsBox page r.2 362).1.filterMap shownAmount = [0, 0, 0] ∧
      (_drawFooter page r.2 page.width 500 qr).head? =
        some (_drawLine page (footerTop page 500)) ∧
      (_drawFooter page r.2 page.width 500 qr).getLast? =
        some (Op.text [.str "Thank you for your business!"] 40 (footerTop page 500 + 98 + 14)
          (some (page.width - 80)) .center) ∧
      r.1.getLast? =
        some (Op.text [.str "Thank you for your business!"] 40 (footerTop page 500 + 98 + 14)
          (some (page.width - 80)) .center) := by
  have hrows : totalRows invoice = 0 := by
    rcases hitems with h | h <;> simp [totalRows, h]
  have hget : invoice.items.getD [] = [] := by
    rcases hitems with h | h <;> simp [h]
  have hh : tableHeight invoice = 30 := by
    simp [tableHeight, hrows, headerHeight]
  have hret : (_drawItemsTable page invoice).ret = 362 := by
    rw [drawItemsTable_ret, hh]
    norm_num [tableTop]
  have hct : computeTotals (_drawItemsTable page invoice).invoice =
      { subtotal := 0, taxRate := 0, taxAmount := 0, discountRate := 0, discountAmount := 0,
        total := 0 } := by
    simp [computeTotals, _drawItemsTable, hsub, hrate, htax, hdrate, hdisc, htotal, orNum]
  have hbot : (_build page invoice qr).totalsBottomY = 500 := by
    rw [build_totalsBottomY, hrows]
    norm_num
  have htot : (_build page invoice qr).totalsOps =
      (_drawTotalsBox page (_drawItemsTable page invoice).invoice 362).1 := by
    rw [← hret]
    rfl
  have hfoot : (_build page invoice qr).footerOps =
      _drawFooter page (_drawItemsTable page invoice).invoice page.width 500 qr := by
    rw [← hbot]
    rfl
  have hlast : (_drawFooter page (_drawItemsTable page invoice).invoice page.width 500
      qr).getLast? =
      some (Op.text [.str "Thank you for your business!"] 40 (footerTop page 500 + 98 + 14)
        (some (page.width - 80)) .center) := by
    obtain ⟨h1, h2, h3⟩ := drawFooter_cases page (_drawItemsTable page invoice).invoice
      page.width 500
    rcases qr with _ | _ | _
    · rw [h1]; rfl
    · rw [h3]; rfl
    · rw [h2, h1]; rfl
  obtain ⟨header, hheader⟩ := drawHeader_ok_of_sender invoice page.width sender hsender
  have hdoc := buildDocument_of_header page invoice cursorAfter qr header hheader
  refine ⟨by rw [hh]; rfl, hh, ?_, by rw [hret]; norm_num, by decide,
    _, header, hdoc, hheader, ?_, ?_, ?_, hlast, ?_⟩
  · simp only [_drawItemsTable, hget, drawRows, List.append_nil, hh, tableWidth, tableLeft,
      tableTop, headerHeight]
    norm_num
  · show _ ++ (_build page invoice qr).tableOps ++ (_build page invoice qr).totalsOps
        ++ (_build page invoice qr).footerOps = _
    rw [htot, hfoot]
    rfl
  · show (_drawTotalsBox page (_drawItemsTable page invoice).invoice 362).1.filterMap
        shownAmount = [0, 0, 0]
    rw [drawTotalsBox_shown, hct]
    simp
  · show (_drawFooter page (_drawItemsTable page invoice).invoice page.width 500 qr).head? = _
    rcases qr with _ | _ | _ <;> simp [_drawFooter]
  · show (_ ++ (_build page invoice qr).footerOps).getLast? = _
    rw [hfoot, List.getLast?_append, hlast]
    rfl

/-- C22 (witness): the invoice with a sender and an empty item list, on A4 without a glyph. -/
theorem C22_zero_items_witness :
    emptyInvoice.sender = some { name := some "Acme" } ∧
    (emptyInvoice.items = none ∨ emptyInvoice.items = some []) ∧
    tableHeight emptyInvoice = 30 ∧
    (_drawItemsTable a4 emptyInvoice).ret = 320 + 30 + 12 ∧
    ∃ r, buildDocument a4 emptyInvoice oneLine none = .ok r ∧
      (_drawTotalsBox a4 r.2 362).1.filterMap shownAmount = [0, 0, 0] ∧
      r.1.getLast? =
        some (Op.text [.str "Thank you for your business!"] 40 (footerTop a4 500 + 98 + 14)
          (some (a4.width - 80)) .center) :=
  ⟨rfl, Or.inr rfl,
    (C22_zero_items a4 emptyInvoice oneLine none _ rfl (Or.inr rfl) rfl rfl rfl rfl rfl rfl).2.1,
    (C22_zero_items a4 emptyInvoice oneLine none _ rfl (Or.inr rfl) rfl rfl rfl rfl rfl
      rfl).2.2.2.1,
    (C22_zero_items a4 emptyInvoice oneLine none _ rfl (Or.inr rfl) rfl rfl rfl rfl rfl
      rfl).2.2.2.2.2.elim
      (fun r hr => hr.elim (fun _ hx => ⟨r, hx.1, hx.2.2.2.1, hx.2.2.2.2.2.2⟩))⟩

/-! ## Claims on the geometry of rows, bill-to and totals panel -/

/-- The texts of a row: description, quantity and unit price of the item. -/
theorem drawRow_texts (w y : ℚ) (item : Item) (idx : ℕ) :
    textsOf (drawRow w y item idx) =
      [[.str (orStr item.description "-")], [.num (orNum item.quantity 0)],
       [.str "Rs.", .fixed2 (orNum item.price 0)]] := by
  by_cases hi : idx % 2 = 0 <;> simp [drawRow, textsOf, opText, hi]

/-- The Y of the three texts of a row with band top `y`. -/
theorem drawRow_textY (w y : ℚ) (item : Item) (idx : ℕ) :
    (drawRow w y item idx).filterMap opTextY =
      [y + (rowHeight - 12) / 2 + 1, y + (rowHeight - 12) / 2 + 1,
       y + (rowHeight - 12) / 2 + 1] := by
  by_cases hi : idx % 2 = 0 <;> simp [drawRow, opTextY, hi]

/-- C23 (counterexample): the texts of the row with band top 350 are drawn at Y 359, not at
`350 + (28 - 12) / 2 = 358`; the header texts are drawn at Y 330.5, not at
`320 + (30 - 13) / 2 = 328.5`. -/
theorem C23_text_not_at_band_center :
    (drawRow 515 350 widget 0).filterMap opTextY = [359, 359, 359] ∧
    (350 : ℚ) + (rowHeight - 12) / 2 = 358 ∧ (359 : ℚ) ≠ 358 ∧
    ((_drawItemsTable a4 itemsOnly).ops.take 5).filterMap opTextY =
      [661 / 2, 661 / 2, 661 / 2] ∧
    tableTop + (headerHeight - 13) / 2 = 657 / 2 ∧ (661 / 2 : ℚ) ≠ 657 / 2 := by
  refine ⟨?_, by norm_num [rowHeight], by norm_num, ?_, by norm_num [tableTop, headerHeight],
    by norm_num⟩
  · rw [drawRow_textY]
    norm_num [rowHeight]
  · simp only [_drawItemsTable, List.cons_append, List.take_succ_cons, List.take_zero,
      List.filterMap_cons, opTextY, List.filterMap_nil, tableTop, headerHeight]
    norm_num

/-- C23 (amended): for every row band with top `rowTop` the three cell texts are drawn at
`rowTop + (rowHeight - 12) / 2 + 1 = rowTop + 9`, one unit below the centred position, and the
three header texts at `top + (headerHeight - 13) / 2 + 2 = top + 10.5`, two units below it. -/
theorem C23_text_y_with_offsets (page : Page) (invoice : Invoice) (w rowTop : ℚ) (item : Item)
    (idx : ℕ) :
    (drawRow w rowTop item idx).filterMap opTextY =
      [rowTop + (rowHeight - 12) / 2 + 1, rowTop + (rowHeight - 12) / 2 + 1,
       rowTop + (rowHeight - 12) / 2 + 1] ∧
    rowTop + (rowHeight - 12) / 2 + 1 = rowTop + 9 ∧ rowHeight = 28 ∧
    ((_drawItemsTable page invoice).ops.take 5).filterMap opTextY =
      [tableTop + (headerHeight - 13) / 2 + 2, tableTop + (headerHeight - 13) / 2 + 2,
       tableTop + (headerHeight - 13) / 2 + 2] ∧
    tableTop + (headerHeight - 13) / 2 + 2 = tableTop + 21 / 2 ∧ headerHeight = 30 := by
  refine ⟨drawRow_textY w rowTop item idx, by rw [rowHeight]; ring, rfl, ?_,
    by rw [headerHeight]; ring, rfl⟩
  simp only [_drawItemsTable, List.cons_append, List.take_succ_cons, List.take_zero,
    List.filterMap_cons, opTextY, List.filterMap_nil]

/-- The operations of the row loop: row `i` is the row of the `i`-th item, drawn with band
top `y + rowHeight * i` and index `idx + i`. -/
theorem drawRows_ops (w : ℚ) (items : List Item) (idx : ℕ) (y : ℚ) :
    (drawRows w items idx y).1 =
      ((List.range items.length).map
        (fun (i : ℕ) =>
          drawRow w (y + rowHeight * (i : ℚ)) (items.getD i {}) (idx + i))).flatten := by
  induction items generalizing idx y with
  | nil => simp [drawRows]
  | cons item rest ih =>
    simp only [drawRows, ih, List.length_cons, List.range_succ_eq_map, List.map_cons,
      List.map_map, List.flatten_cons, Nat.cast_zero, mul_zero, add_zero, List.getD_cons_zero]
    congr 2
    apply List.map_congr_left
    intro i _
    simp only [Function.comp_apply, List.getD_cons_succ, Nat.cast_succ]
    congr 1
    · ring
    · omega

/-- C24: the rows are drawn in the order of the item list: after the five header operations,
`_drawItemsTable` draws for `i = 0, 1, ..., n - 1` the row of `items[i]`, whose band starts at
`tableTop + headerHeight + i * rowHeight = 350 + 28 * i` and whose texts are the description,
quantity and unit price of `items[i]`; the band of the last row ends at
`tableTop + tableHeight`, the bottom of the border drawn first. -/
theorem C24_rows_in_insertion_order (page : Page) (invoice : Invoice) :
    (_drawItemsTable page invoice).ops.drop 5 =
      ((List.range (invoice.items.getD []).length).map
        (fun (i : ℕ) => drawRow (tableWidth page) (350 + 28 * (i : ℚ))
          ((invoice.items.getD []).getD i {}) i)).flatten ∧
    (∀ i (h : i < (invoice.items.getD []).length),
      (invoice.items.getD []).getD i {} = (invoice.items.getD [])[i] ∧
      (drawRow (tableWidth page) (350 + 28 * (i : ℚ)) (invoice.items.getD [])[i] i).head? =
        some (Op.rect 40 (350 + 28 * (i : ℚ)) (tableWidth page) 28) ∧
      textsOf (drawRow (tableWidth page) (350 + 28 * (i : ℚ)) (invoice.items.getD [])[i] i) =
        [[.str (orStr (invoice.items.getD [])[i].description "-")],
         [.num (orNum (invoice.items.getD [])[i].quantity 0)],
         [.str "Rs.", .fixed2 (orNum (invoice.items.getD [])[i].price 0)]] ∧
      (350 : ℚ) + 28 * (i : ℚ) = tableTop + headerHeight + (i : ℚ) * rowHeight ∧
      (i + 1 = (invoice.items.getD []).length →
        (350 : ℚ) + 28 * (i : ℚ) + rowHeight = tableTop + tableHeight invoice)) ∧
    (_drawItemsTable page invoice).ops.head? =
      some (Op.rect 40 320 (tableWidth page) (tableHeight invoice)) ∧
    (_drawItemsTable page invoice).ret - 12 = tableTop + tableHeight invoice := by
  refine ⟨?_, ?_, ?_, ?_⟩
  · simp only [_drawItemsTable, List.cons_append, List.nil_append, List.drop_succ_cons,
      List.drop_zero, drawRows_ops, zero_add, tableTop, headerHeight, rowHeight]
    norm_num
  · intro i h
    refine ⟨?_, ?_, drawRow_texts _ _ _ _, ?_, ?_⟩
    · simp [List.getD_eq_getElem?_getD, List.getElem?_eq_getElem h]
    · simp [drawRow, tableLeft, rowHeight]
    · simp only [tableTop, headerHeight, rowHeight]
      ring
    · intro hlast
      simp only [tableHeight, totalRows_eq_length, ← hlast, tableTop, headerHeight, rowHeight]
      push_cast
      ring
  · simp [_drawItemsTable, tableLeft, tableTop]
  · rw [drawItemsTable_ret]
    ring

/-! ## Claims on the create route -/

/-- What an accepted request body looks like, and the record built from it. -/
theorem createInvoiceData_some (body r : Invoice) (number : String)
    (h : createInvoiceData body number = some r) :
    ∃ items, body.items = some items ∧ items ≠ [] ∧ items.any itemRejected = false ∧
      r = { body with
        invoiceNumber := some number
        subtotal := JsNum.ofNumber (createSubtotal items)
        taxAmount := JsNum.ofNumber
          ((createSubtotal items).map (· * (orNum body.taxRate 0 / 100)))
        discountAmount := JsNum.ofNumber
          ((createSubtotal items).map (· * (orNum body.discountRate 0 / 100)))
        total := JsNum.ofNumber
          (match createSubtotal items,
              (createSubtotal items).map (· * (orNum body.taxRate 0 / 100)),
              (createSubtotal items).map (· * (orNum body.discountRate 0 / 100)) with
            | some s, some t, some d => some (s + t - d)
            | _, _, _ => none) } := by
  unfold createInvoiceData at h
  split at h
  · simp at h
  · cases hi : body.items with
    | none => simp [hi] at h
    | some items =>
      simp only [hi] at h
      split at h
      · simp at h
      · split at h
        · simp at h
        · rename_i h0 hrej
          refine ⟨items, rfl, ?_, ?_, ?_⟩
          · intro hnil
            exact h0 (by simp [hnil])
          · simpa using hrej
          · injection h with h
            exact h.symm

/-- Every item of an accepted request body has a non-empty description, and its quantity and
price are not numbers that are zero or negative; they may be absent or `NaN`. -/
theorem accepted_items (body r : Invoice) (number : String)
    (h : createInvoiceData body number = some r) (items : List Item)
    (hi : body.items = some items) (item : Item) (hmem : item ∈ items) :
    (∃ d, item.description = some d ∧ d ≠ "") ∧
    (∀ q, item.quantity = .num q → 0 < q) ∧ (∀ p, item.price = .num p → 0 < p) := by
  obtain ⟨items0, hi0, -, hrej, -⟩ := createInvoiceData_some body r number h
  rw [hi] at hi0
  injection hi0 with hi0
  subst hi0
  have hitem : itemRejected item = false := by
    have := List.any_eq_false.mp hrej item hmem
    simpa using this
  simp only [itemRejected, Bool.or_eq_false_iff] at hitem
  obtain ⟨⟨hd, hq⟩, hp⟩ := hitem
  refine ⟨?_, ?_, ?_⟩
  · cases hdesc : item.description with
    | none => simp [hdesc] at hd
    | some d =>
      simp only [hdesc, decide_eq_false_iff_not] at hd
      exact ⟨d, rfl, hd⟩
  · intro q hqn
    simp only [hqn, leZero, decide_eq_false_iff_not, not_le] at hq
    exact hq
  · intro p hpn
    simp only [hpn, leZero, decide_eq_false_iff_not, not_le] at hp
    exact hp

/-- C25 (evaluation at the failing input): a request body whose only item has a description
and the price 100 but no quantity is not answered with status 400; the record built from it
has the subtotal and the total `NaN`. -/
theorem C25_item_without_quantity_accepted :
    noQuantityBody.items = some [{ description := some "Widget", price := .num 100 }] ∧
    itemRejected { description := some "Widget", price := .num 100 } = false ∧
    ∃ r, createInvoice none noQuantityBody = some r ∧ r.subtotal = .nan ∧ r.taxAmount = .nan ∧
      r.total = .nan := by
  have hs : createSubtotal [{ description := some "Widget", price := .num 100 }] = none := by
    simp [createSubtotal, addLine, JsNum.toNumber]
  have hw : ¬ ("Widget" = "") := by decide
  have hrej : itemRejected { description := some "Widget", price := .num 100 } = false := by
    norm_num [itemRejected, leZero, hw]
  have hr : createInvoice none noQuantityBody =
      some { noQuantityBody with
        invoiceNumber := some (nextInvoiceNumber none), subtotal := .nan, taxAmount := .nan,
        discountAmount := .nan, total := .nan } := by
    simp only [createInvoice, createInvoiceData, noQuantityBody, hs]
    norm_num [hrej, JsNum.ofNumber]
  exact ⟨rfl, hrej, _, hr, rfl, rfl, rfl⟩

/-- The record the create route builds for `forgedBody` when no invoice is stored yet. -/
theorem createInvoice_forgedBody :
    createInvoice none forgedBody =
      some { widgetBody with
        invoiceNumber := some "INV-0001", subtotal := .num 200, taxAmount := .num 36,
        discountAmount := .num 0, total := .num 236 } := by
  have hs : createSubtotal [widget] = some 200 := by
    norm_num [createSubtotal, addLine, widget, JsNum.toNumber]
  have hn : nextInvoiceNumber none = "INV-0001" := by decide
  have hw : ¬ ("Widget" = "") := by decide
  simp only [createInvoice, createInvoiceData, forgedBody, widgetBody, hs, hn]
  norm_num [itemRejected, leZero, widget, orNum, JsNum.ofNumber, hw]

/-- C26: for every accepted request body the record built by the create route has the invoice
number generated from the last stored invoice, the subtotal `Σ quantity * price` over the
items of the body, the tax amount `subtotal * taxRate / 100`, the discount amount
`subtotal * discountRate / 100` and the total `subtotal + taxAmount - discountAmount` (`NaN`
when the sum is `NaN`); two accepted bodies with the same items and rates give the same five
values, whatever else they carry, so values supplied for these fields do not reach the
record. -/
theorem C26_totals_computed_on_server (lastInvoice : Option Invoice) (body r : Invoice)
    (h : createInvoice lastInvoice body = some r) :
    ∃ items, body.items = some items ∧
      r.invoiceNumber = some (nextInvoiceNumber lastInvoice) ∧
      r.subtotal = JsNum.ofNumber (createSubtotal items) ∧
      r.taxAmount = JsNum.ofNumber
        ((createSubtotal items).map (fun s => s * orNum body.taxRate 0 / 100)) ∧
      r.discountAmount = JsNum.ofNumber
        ((createSubtotal items).map (fun s => s * orNum body.discountRate 0 / 100)) ∧
      r.total = JsNum.ofNumber
        ((createSubtotal items).map (fun s =>
          s + s * orNum body.taxRate 0 / 100 - s * orNum body.discountRate 0 / 100)) ∧
      (∀ other r2, other.items = body.items → other.taxRate = body.taxRate →
        other.discountRate = body.discountRate → createInvoice lastInvoice other = some r2 →
        r2.invoiceNumber = r.invoiceNumber ∧ r2.subtotal = r.subtotal ∧
        r2.taxAmount = r.taxAmount ∧ r2.discountAmount = r.discountAmount ∧
        r2.total = r.total) := by
  obtain ⟨items, hi, -, -, hr⟩ := createInvoiceData_some body r _ h
  refine ⟨items, hi, by rw [hr], ?_, ?_, ?_, ?_, ?_⟩
  · rw [hr]
  · rw [hr]
    cases createSubtotal items <;> simp [mul_div_assoc]
  · rw [hr]
    cases createSubtotal items <;> simp [mul_div_assoc]
  · rw [hr]
    cases createSubtotal items <;> simp [mul_div_assoc]
  · intro other r2 ho ht hd h2
    obtain ⟨items2, hi2, -, -, hr2⟩ := createInvoiceData_some other r2 _ h2
    rw [ho, hi] at hi2
    injection hi2 with hi2
    subst hi2
    rw [hr, hr2, ht, hd]
    exact ⟨rfl, rfl, rfl, rfl, rfl⟩

/-- C26 (witness): the body that supplies `INV-9999` and the value 1 for the four amounts gets
the record with `INV-0001`, subtotal 200, tax amount 36, discount amount 0 and total 236. -/
theorem C26_totals_computed_witness :
    forgedBody.subtotal = .num 1 ∧ forgedBody.invoiceNumber = some "INV-9999" ∧
    ∃ r, createInvoice none forgedBody = some r ∧
      r.invoiceNumber = some "INV-0001" ∧ r.subtotal = .num 200 ∧ r.total = .num 236 ∧
      ∃ items, forgedBody.items = some items ∧
        r.invoiceNumber = some (nextInvoiceNumber none) ∧
        r.subtotal = JsNum.ofNumber (createSubtotal items) :=
  ⟨rfl, rfl, _, createInvoice_forgedBody, rfl, rfl, rfl,
    (C26_totals_computed_on_server none forgedBody _ createInvoice_forgedBody).imp
      (fun _ hx => ⟨hx.1, hx.2.1, hx.2.2.1⟩)⟩

/-! ## Claims on the footer clamp, the bill-to rule, the amount column and the panel height -/

/-- C27: on the A4 page of height 841.89 the totals panel ends at `500 + 28 * n` for `n` items;
the footer top keeps the 28-unit gap below it exactly when `n ≤ 5`, it lies strictly above
the panel bottom exactly when `n ≥ 7`, and for `n = 6` it is below the panel bottom but less
than 28 units away. -/
theorem C27_a4_item_thresholds (invoice : Invoice) (qr : Option QrBuffer) :
    a4.height = 84189 / 100 ∧
    (_build a4 invoice qr).totalsBottomY = 500 + 28 * (totalRows invoice : ℚ) ∧
    ((_build a4 invoice qr).totalsBottomY + 28 ≤
        footerTop a4 (_build a4 invoice qr).totalsBottomY ↔ totalRows invoice ≤ 5) ∧
    (footerTop a4 (_build a4 invoice qr).totalsBottomY <
        (_build a4 invoice qr).totalsBottomY ↔ 7 ≤ totalRows invoice) ∧
    (totalRows invoice = 6 →
      (_build a4 invoice qr).totalsBottomY ≤
        footerTop a4 (_build a4 invoice qr).totalsBottomY ∧
      footerTop a4 (_build a4 invoice qr).totalsBottomY <
        (_build a4 invoice qr).totalsBottomY + 28) := by
  refine ⟨rfl, build_totalsBottomY a4 invoice qr, ?_, ?_, ?_⟩ <;>
    rw [build_totalsBottomY] <;> simp only [footerTop, a4]
  · rw [le_min_iff]
    constructor
    · rintro ⟨-, h⟩
      by_contra hn
      have h6 : 6 ≤ totalRows invoice := by omega
      have : (6 : ℚ) ≤ (totalRows invoice : ℚ) := by exact_mod_cast h6
      linarith
    · intro h
      have : (totalRows invoice : ℚ) ≤ 5 := by exact_mod_cast h
      constructor <;> linarith
  · rw [min_lt_iff]
    constructor
    · rintro (h | h)
      · linarith
      · by_contra hn
        have h6 : totalRows invoice ≤ 6 := by omega
        have : (totalRows invoice : ℚ) ≤ 6 := by exact_mod_cast h6
        linarith
    · intro h
      have : (7 : ℚ) ≤ (totalRows invoice : ℚ) := by exact_mod_cast h
      right
      linarith
  · intro h
    rw [h]
    norm_num

/-- C28: the rule closing the bill-to block is drawn at `c + 50`, where `c` is the text cursor
after the address drawn at Y 246, while the table border starts at Y 320 whatever `c` is; so
the table top is at or below the rule exactly when `c ≤ 270`, that is when the address takes
at most 24 units of height, and the rule lies inside the table for every taller address. -/
theorem C28_table_top_fixed (page : Page) (invoice : Invoice) (cursorAfter : String → ℚ) :
    (_drawBillTo page invoice cursorAfter).getLast? =
      some (_drawLine page
        (cursorAfter (orStr (invoice.recipient.bind (·.address)) "-") + 50)) ∧
    ((_drawBillTo page invoice cursorAfter).drop 3).head? =
      some (Op.text [.str (orStr (invoice.recipient.bind (·.address)) "-")] 40 246
        (some 380) .left) ∧
    (_drawItemsTable page invoice).ops.head? =
      some (Op.rect 40 320 (tableWidth page) (tableHeight invoice)) ∧
    tableTop = 320 ∧
    (cursorAfter (orStr (invoice.recipient.bind (·.address)) "-") + 50 ≤ tableTop ↔
      cursorAfter (orStr (invoice.recipient.bind (·.address)) "-") ≤ 270) ∧
    (cursorAfter (orStr (invoice.recipient.bind (·.address)) "-") ≤ 270 ↔
      cursorAfter (orStr (invoice.recipient.bind (·.address)) "-") - 246 ≤ 24) ∧
    (24 < cursorAfter (orStr (invoice.recipient.bind (·.address)) "-") - 246 ↔
      tableTop < cursorAfter (orStr (invoice.recipient.bind (·.address)) "-") + 50) := by
  refine ⟨?_, ?_, ?_, rfl, ?_, ?_, ?_⟩
  · simp only [_drawBillTo, List.getLast?_cons_cons, List.getLast?_singleton]
    congr 2
    ring
  · simp only [_drawBillTo, List.drop_succ_cons, List.drop_zero, List.head?_cons]
    norm_num
  · simp [_drawItemsTable, tableLeft, tableTop]
  · simp only [tableTop]
    constructor <;> intro h <;> linarith
  · constructor <;> intro h <;> linarith
  · simp only [tableTop]
    constructor <;> intro h <;> linarith

/-- C29: the Amount cell of a row is `Rs.` followed by `Number(item.price || 0)` to two
decimals, the unit price of the item; it is the same for an item with any other quantity.
For the item with quantity 2 and price 100 the cell reads `Rs.100.00`, while the subtotal the
create route computes for it is 200. -/
theorem C29_amount_is_unit_price (w y : ℚ) (idx : ℕ) (item : Item) (quantity : JsNum) :
    (textsOf (drawRow w y item idx)).getLast? =
      some [.str "Rs.", .fixed2 (orNum item.price 0)] ∧
    (textsOf (drawRow w y { item with quantity := quantity } idx)).getLast? =
      (textsOf (drawRow w y item idx)).getLast? ∧
    (∀ p, item.price = .num p → orNum item.price 0 = p) ∧
    (textsOf (drawRow w y widget idx)).getLast?.bind renderText = some "Rs.100.00" ∧
    createSubtotal [widget] = some 200 ∧
    (∃ r, createInvoice none widgetBody = some r ∧ r.subtotal = .num 200) := by
  refine ⟨?_, ?_, ?_, ?_, ?_, _, createInvoice_widgetBody, rfl⟩
  · rw [drawRow_texts]
    rfl
  · rw [drawRow_texts, drawRow_texts]
    rfl
  · intro p hp
    by_cases h0 : p = 0 <;> simp [hp, orNum, h0]
  · rw [drawRow_texts]
    decide
  · norm_num [createSubtotal, addLine, widget, JsNum.toNumber]

/-- The Y coordinates of the texts and of the divider of the totals panel. -/
theorem drawTotalsBox_ys (page : Page) (invoice : Invoice) (startY : ℚ) :
    (_drawTotalsBox page invoice startY).1.filterMap opY =
      if 0 < (computeTotals invoice).discountRate then
        [boxY startY + 14, boxY startY + 14, boxY startY + 36, boxY startY + 36,
         boxY startY + 58, boxY startY + 58, boxY startY + 80, boxY startY + 88,
         boxY startY + 88]
      else
        [boxY startY + 14, boxY startY + 14, boxY startY + 36, boxY startY + 36,
         boxY startY + 58, boxY startY + 66, boxY startY + 66] := by
  rw [drawTotalsBox_ops]
  by_cases h : 0 < (computeTotals invoice).discountRate
  · simp only [h, if_true, printLine, List.cons_append, List.nil_append, List.filterMap_cons,
      opY, List.filterMap_nil]
    norm_num [add_assoc]
  · simp only [h, if_false, printLine, List.cons_append, List.nil_append, List.append_nil,
      List.filterMap_cons, opY, List.filterMap_nil]
    norm_num [add_assoc]

/-- C30: in the totals panel the divider is drawn at `boxY + 58` and the Total line at
`boxY + 66` when the discount rate is not positive, and at `boxY + 80` and `boxY + 88` when it
is; every text and the divider lie between `boxY` and `boxY + 130 - 16`, so the Total line with
its 16-unit font ends inside the panel of height 130; and the returned bottom is
`boxY + 130` in both cases. -/
theorem C30_totals_inside_panel (page : Page) (invoice : Invoice) (startY : ℚ) :
    (¬ 0 < (computeTotals invoice).discountRate →
      ((_drawTotalsBox page invoice startY).1.filterMap opY).drop 4 =
        [boxY startY + 58, boxY startY + 66, boxY startY + 66]) ∧
    (0 < (computeTotals invoice).discountRate →
      ((_drawTotalsBox page invoice startY).1.filterMap opY).drop 6 =
        [boxY startY + 80, boxY startY + 88, boxY startY + 88]) ∧
    (∀ y ∈ (_drawTotalsBox page invoice startY).1.filterMap opY,
      boxY startY ≤ y ∧ y + 16 ≤ boxY startY + 130) ∧
    (_drawTotalsBox page invoice startY).1.head? =
      some (Op.roundedRect (boxX page) (boxY startY) 280 130 8) ∧
    (_drawTotalsBox page invoice startY).2 = boxY startY + 130 ∧
    (computeTotals invoice).discountRate = orNum invoice.discountRate 0 := by
  have hys := drawTotalsBox_ys page invoice startY
  refine ⟨?_, ?_, ?_, ?_, rfl, rfl⟩
  · intro h
    rw [hys, if_neg h]
    rfl
  · intro h
    rw [hys, if_pos h]
    rfl
  · intro y hy
    rw [hys] at hy
    split at hy
    · simp only [List.mem_cons, List.mem_singleton, List.not_mem_nil, or_false] at hy
      rcases hy with h | h | h | h | h | h | h | h | h <;> rw [h] <;> constructor <;> linarith
    · simp only [List.mem_cons, List.mem_singleton, List.not_mem_nil, or_false] at hy
      rcases hy with h | h | h | h | h | h | h <;> rw [h] <;> constructor <;> linarith
  · rw [drawTotalsBox_ops]
    simp [boxWidth, boxHeight]

end InvoiceBackend
